import Mathlib

/-!
# Alert controller of the crowdsec local API (`cmd/api/controllers/alerts.go`)

A shallow embedding of the two handlers `Controller.CreateAlert` and
`Controller.FindAlerts`.

* The request structs (`CreateAlertInput`, `Event`, `Source`, `Meta`,
  `Decision`) are transcribed field by field, with their `binding` tags.
* A Go slice is an `Option (List α)`: `none` is the nil slice (the JSON key is
  absent or `null`), `some []` is the empty, non-nil slice decoded from `[]`.
* The storage client is explicit state (`Store`) threaded through the handler.
  Every storage call may fail; which calls fail is given by a `Faults` record,
  so that theorems quantify over all fault scenarios.
* `gctx.JSON` is an entry appended to the list of emitted responses.
* `log.Errorf` has no effect on the store or on the response and is left out.
-/

namespace Crowdsec

/-! ## Request shape -/

/-- Go `time.Time` as decoded from JSON: the instant, as the signed distance
from the zero instant, and the `*Location` it carries. `loc = none` is the nil
pointer, which a time written with `Z` gets; a time written with a numeric
offset carries a location, given here by its offset in seconds. The zero value
`time.Time{}` is `⟨0, none⟩`. -/
structure GoTime where
  ticks : Int
  loc : Option Int
deriving DecidableEq

/-- Go `float32`, carried as its bit pattern: the handler only copies it. -/
abbrev Float32 := Nat

/-- Go struct `Event` (no binding tag on either field). -/
structure Event where
  Time : GoTime
  Serialized : String
deriving DecidableEq

/-- Go struct `Source`: `Scope` and `Value` carry `binding:"required"`. -/
structure Source where
  Scope : String
  Value : String
  Ip : String
  Range : String
  AsNumber : String
  AsName : String
  Country : String
  Latitude : Float32
  Longitude : Float32
deriving DecidableEq

/-- Go struct `Meta` (no binding tag). -/
structure Meta where
  Key : String
  Value : String
deriving DecidableEq

/-- Go struct `Decision` (no binding tag). -/
structure Decision where
  Until : GoTime
  Scenario : String
  DecisionType : String
  SourceIpStart : Int
  SourceIpEnd : Int
  SourceValue : String
  SourceScope : String
deriving DecidableEq

/-- Go struct `CreateAlertInput` after JSON decoding: an absent key leaves the
Go zero value (`0`, `""`, the zero time, `false`, the nil slice). -/
structure CreateAlertInput where
  MachineId : Int
  Scenario : String
  BucketId : String
  Message : String
  EventCount : Int
  StartedAt : GoTime
  StoppedAt : GoTime
  Capacity : Int
  LeakSpeed : Int
  Reprocess : Bool
  Source : Source
  Events : Option (List Event)
  Metas : Option (List Meta)
  Decisions : Option (List Decision)
deriving DecidableEq

/-- Elements visited by `for _, x := range slice`; ranging over the nil slice visits nothing. -/
def elems {α : Type} : Option (List α) → List α
  | none => []
  | some xs => xs

/-- Go `len(slice)`; the nil slice has length 0. -/
def len {α : Type} (xs : Option (List α)) : Nat := (elems xs).length

/-! ## Request binding (`gctx.ShouldBindJSON`)

The `required` tag of the validator behind the gin binding accepts a field iff it
is not the zero value of its type; for a slice that means: not nil. A nested
struct is validated through its own tagged fields. There is no `dive` tag, so
slice elements are not validated. -/

/-- The tag `required` on an `int` field. -/
def requiredInt (n : Int) : Bool := n != 0

/-- The tag `required` on a `string` field. -/
def requiredString (s : String) : Bool := s != ""

/-- The tag `required` on a `time.Time` field: the whole value, location
included, differs from the zero value `time.Time{}`. -/
def requiredTime (t : GoTime) : Bool := t != ⟨0, none⟩

/-- The tag `required` on a slice field: the slice is not nil. -/
def requiredSlice {α : Type} (xs : Option (List α)) : Bool := xs.isSome

/-- Names of the fields of `CreateAlertInput` whose `binding:"required"` tag is
violated, in declaration order. `Reprocess` and `Metas` carry no binding tag. -/
def violations (i : CreateAlertInput) : List String :=
  (if requiredInt i.MachineId then [] else ["MachineId"]) ++
  (if requiredString i.Scenario then [] else ["Scenario"]) ++
  (if requiredString i.BucketId then [] else ["BucketId"]) ++
  (if requiredString i.Message then [] else ["Message"]) ++
  (if requiredInt i.EventCount then [] else ["EventCount"]) ++
  (if requiredTime i.StartedAt then [] else ["StartedAt"]) ++
  (if requiredTime i.StoppedAt then [] else ["StoppedAt"]) ++
  (if requiredInt i.Capacity then [] else ["Capacity"]) ++
  (if requiredInt i.LeakSpeed then [] else ["LeakSpeed"]) ++
  (if requiredString i.Source.Scope then [] else ["Source.Scope"]) ++
  (if requiredString i.Source.Value then [] else ["Source.Value"]) ++
  (if requiredSlice i.Events then [] else ["Events"]) ++
  (if requiredSlice i.Decisions then [] else ["Decisions"])

/-- The error returned by `ShouldBindJSON`: the body does not decode into the
struct, or decoded fields violate their binding tags. -/
inductive BindError where
  | decode (msg : String)
  | validation (fields : List String)
deriving DecidableEq

/-- The text of an error envelope: a string literal of the handler, or the
`err.Error()` of a binding error. The wording of the latter belongs to the JSON
decoder and to the validator; it is kept symbolic and never spelled out. -/
inductive ErrorText where
  | literal (s : String)
  | ofBind (err : BindError)
deriving DecidableEq

/-- A string literal of the handler used as the text of an error envelope. -/
instance : Coe String ErrorText := ⟨ErrorText.literal⟩

/-- Go `err.Error()` for a binding error, as the symbolic text of that error. -/
def BindError.Error (err : BindError) : ErrorText := .ofBind err

/-- Go `gctx.ShouldBindJSON(&input)`. The body is given by the result of JSON
decoding: an error text, or the decoded struct. -/
def ShouldBindJSON (body : Except String CreateAlertInput) : Except BindError CreateAlertInput :=
  match body with
  | .error msg => .error (.decode msg)
  | .ok input =>
    match violations input with
    | [] => .ok input
    | f :: fs => .error (.validation (f :: fs))

/-! ## Storage -/

/-- The `Machine` entity; the handler only uses it as the owner of an alert. -/
structure Machine where
  ID : Int
deriving DecidableEq

/-- The `Alert` entity as built by the `Alert.Create()` chain, with the
generated identifier and the owner reference. -/
structure Alert where
  ID : Int
  Scenario : String
  BucketId : String
  Message : String
  EventsCount : Int
  StartedAt : GoTime
  StoppedAt : GoTime
  SourceScope : String
  SourceValue : String
  SourceIp : String
  SourceRange : String
  SourceAsNumber : String
  SourceAsName : String
  SourceCountry : String
  SourceLatitude : Float32
  SourceLongitude : Float32
  Capacity : Int
  LeakSpeed : Int
  Reprocess : Bool
  Owner : Int
deriving DecidableEq

/-- The `Event` entity: the fields set by the `Event.Create()` chain and the owning alert. -/
structure EventRow where
  Time : GoTime
  Serialized : String
  Owner : Int
deriving DecidableEq

/-- The `Meta` entity: the fields set by the `Meta.Create()` chain and the owning alert. -/
structure MetaRow where
  Key : String
  Value : String
  Owner : Int
deriving DecidableEq

/-- The `Decision` entity: the fields set by the `Decision.Create()` chain and the owning alert. -/
structure DecisionRow where
  Until : GoTime
  Scenario : String
  DecisionType : String
  SourceIpStart : Int
  SourceIpEnd : Int
  SourceValue : String
  SourceScope : String
  Owner : Int
deriving DecidableEq

/-- The persisted state: the four tables written by the handler, the machine
table it reads, and the next identifier the alert table will generate. Rows are
kept in insertion order. -/
structure Store where
  machines : List Machine
  alerts : List Alert
  events : List EventRow
  metas : List MetaRow
  decisions : List DecisionRow
  nextAlertID : Int
deriving DecidableEq

/-- Referential integrity of a store: alert identifiers were generated below the
next identifier, and every child row references an identifier generated so far. -/
structure Store.WF (s : Store) : Prop where
  alerts_lt : ∀ a ∈ s.alerts, a.ID < s.nextAlertID
  events_lt : ∀ e ∈ s.events, e.Owner < s.nextAlertID
  metas_lt : ∀ m ∈ s.metas, m.Owner < s.nextAlertID
  decisions_lt : ∀ d ∈ s.decisions, d.Owner < s.nextAlertID

/-- The store with no rows. -/
def Store.empty : Store := ⟨[], [], [], [], [], 1⟩

/-- A fault scenario of the storage backend: whether the machine lookup fails
for a storage reason, whether the insert attempted after `n` earlier insert
attempts of the request fails, and whether the alert query fails. -/
structure Faults where
  lookup : Bool
  insert : Nat → Bool
  query : Bool

/-- The scenario in which no storage call fails. -/
def Faults.none : Faults := ⟨false, fun _ => false, false⟩

/-- The table an insert goes to. -/
inductive Table where
  | alert
  | event
  | meta
  | decision
deriving DecidableEq

/-- The state of one request: the store, the machine lookups performed and the
inserts attempted so far (failed attempts included), oldest first. -/
structure World where
  store : Store
  lookups : List Int
  saves : List Table
deriving DecidableEq

/-- Modelled from the spec: `QueryMachine` is defined outside `alerts.go`.
Per "resolve(machineId) -> Machine | NotFound", it returns the machine with the
given identifier, and fails when there is none or on a storage error. -/
def QueryMachine (fx : Faults) (s : Store) (machineId : Int) : Except String Machine :=
  if fx.lookup then .error "storage error"
  else match s.machines.find? (fun m => m.ID == machineId) with
    | some m => .ok m
    | none => .error "machine not found"

/-- Modelled from the spec: the generated builders behind `Create()...Save(ctx)`
are defined outside `alerts.go`. Per "one row insert" and "any storage error is
terminal for the request", a call on table `t` is recorded as attempted; it
fails, writing nothing, when the fault scenario says so, and otherwise applies
`put` to the store. -/
def Save (fx : Faults) (t : Table) (put : Store → Store) (w : World) : Except World World :=
  if fx.insert w.saves.length then
    .error { w with saves := w.saves ++ [t] }
  else
    .ok { w with store := put w.store, saves := w.saves ++ [t] }

/-- The alert built by the setter chain of `CreateAlert` (source lines 74-94),
with identifier `id`. -/
def newAlert (id : Int) (input : CreateAlertInput) (machine : Machine) : Alert :=
  { ID := id
    Scenario := input.Scenario
    BucketId := input.BucketId
    Message := input.Message
    EventsCount := input.EventCount
    StartedAt := input.StartedAt
    StoppedAt := input.StoppedAt
    SourceScope := input.Source.Scope
    SourceValue := input.Source.Value
    SourceIp := input.Source.Ip
    SourceRange := input.Source.Range
    SourceAsNumber := input.Source.AsNumber
    SourceAsName := input.Source.AsName
    SourceCountry := input.Source.Country
    SourceLatitude := input.Source.Latitude
    SourceLongitude := input.Source.Longitude
    Capacity := input.Capacity
    LeakSpeed := input.LeakSpeed
    Reprocess := input.Reprocess
    Owner := machine.ID }

/-- Modelled from the spec: identifier generation belongs to the storage
backend. Per "children reference the Alert's generated identifier", the alert
row is appended and the table moves on to the next identifier. -/
def Store.addAlert (a : Alert) (s : Store) : Store :=
  { s with alerts := s.alerts ++ [a], nextAlertID := s.nextAlertID + 1 }

/-- The event row built by source lines 104-108. -/
def eventRow (alert : Alert) (e : Event) : EventRow :=
  { Time := e.Time, Serialized := e.Serialized, Owner := alert.ID }

/-- The meta row built by source lines 120-124. -/
def metaRow (alert : Alert) (m : Meta) : MetaRow :=
  { Key := m.Key, Value := m.Value, Owner := alert.ID }

/-- The decision row built by source lines 136-145. -/
def decisionRow (alert : Alert) (d : Decision) : DecisionRow :=
  { Until := d.Until
    Scenario := d.Scenario
    DecisionType := d.DecisionType
    SourceIpStart := d.SourceIpStart
    SourceIpEnd := d.SourceIpEnd
    SourceValue := d.SourceValue
    SourceScope := d.SourceScope
    Owner := alert.ID }

/-- Appending an event row. -/
def Store.addEvent (r : EventRow) (s : Store) : Store :=
  { s with events := s.events ++ [r] }

/-- Appending a meta row. -/
def Store.addMeta (r : MetaRow) (s : Store) : Store :=
  { s with metas := s.metas ++ [r] }

/-- Appending a decision row. -/
def Store.addDecision (r : DecisionRow) (s : Store) : Store :=
  { s with decisions := s.decisions ++ [r] }

/-- Source lines 74-95: `c.Client.Alert.Create()...SetOwner(machine).Save(c.Ectx)`. -/
def AlertSave (fx : Faults) (input : CreateAlertInput) (machine : Machine) (w : World) :
    Except World (Alert × World) :=
  let alert := newAlert w.store.nextAlertID input machine
  match Save fx .alert (Store.addAlert alert) w with
  | .error w1 => .error w1
  | .ok w1 => .ok (alert, w1)

/-- Source lines 104-109: `c.Client.Event.Create()...SetOwner(alert).Save(c.Ectx)`. -/
def EventSave (fx : Faults) (alert : Alert) (e : Event) (w : World) : Except World World :=
  Save fx .event (Store.addEvent (eventRow alert e)) w

/-- Source lines 120-125: `c.Client.Meta.Create()...SetOwner(alert).Save(c.Ectx)`. -/
def MetaSave (fx : Faults) (alert : Alert) (m : Meta) (w : World) : Except World World :=
  Save fx .meta (Store.addMeta (metaRow alert m)) w

/-- Source lines 136-146: `c.Client.Decision.Create()...SetOwner(alert).Save(c.Ectx)`. -/
def DecisionSave (fx : Faults) (alert : Alert) (d : Decision) (w : World) : Except World World :=
  Save fx .decision (Store.addDecision (decisionRow alert d)) w

/-- The loop `for _, x := range xs { if err := save(x); err != nil { ...; return } }`:
elements are saved in order and the first failure leaves the loop. -/
def saveEach {α : Type} (save : α → World → Except World World) :
    List α → World → Except World World
  | [], w => .ok w
  | x :: xs, w =>
    match save x w with
    | .error w1 => .error w1
    | .ok w1 => saveEach save xs w1

/-- The block `if len(xs) > 0 { for _, x := range xs { ... } }`. -/
def saveSlice {α : Type} (save : α → World → Except World World)
    (xs : Option (List α)) (w : World) : Except World World :=
  if len xs > 0 then saveEach save (elems xs) w else .ok w

/-! ## Responses -/

/-- An alert returned by the query, with its eagerly loaded edges. -/
structure LoadedAlert where
  alert : Alert
  events : List EventRow
  metas : List MetaRow
  decisions : List DecisionRow
deriving DecidableEq

/-- The JSON body `gin.H{...}` of a response: `{"error": msg}`, `{"data": alert}`
or `{"data": alerts}`. -/
inductive H where
  | error (msg : ErrorText)
  | data (alert : Alert)
  | dataList (alerts : List LoadedAlert)
deriving DecidableEq

/-- A call `gctx.JSON(status, body)`. -/
structure Response where
  status : Nat
  body : H
deriving DecidableEq

/-- Go `http.StatusOK`. -/
def StatusOK : Nat := 200

/-- Go `http.StatusBadRequest`. -/
def StatusBadRequest : Nat := 400

/-- Go `http.StatusInternalServerError`. -/
def StatusInternalServerError : Nat := 500

/-- What a handler run leaves behind: the store, the storage calls it made and
the responses it emitted, oldest first. -/
structure Outcome where
  store : Store
  lookups : List Int
  saves : List Table
  emitted : List Response
deriving DecidableEq

/-- The handler calls `gctx.JSON(status, body)` and returns. -/
def World.reply (w : World) (status : Nat) (body : H) : Outcome :=
  { store := w.store, lookups := w.lookups, saves := w.saves, emitted := [⟨status, body⟩] }

/-! ## The handlers -/

/-- Go `func (c *Controller) CreateAlert(gctx *gin.Context)`, source lines 60-157. -/
def CreateAlert (fx : Faults) (s : Store) (body : Except String CreateAlertInput) : Outcome :=
  match ShouldBindJSON body with
  | .error err => World.reply ⟨s, [], []⟩ StatusBadRequest (.error err.Error)
  | .ok input =>
    let w0 : World := ⟨s, [input.MachineId], []⟩
    match QueryMachine fx s input.MachineId with
    | .error _ =>
      w0.reply StatusInternalServerError (.error "failed creating alert, machineId not exist")
    | .ok machine =>
      match AlertSave fx input machine w0 with
      | .error w1 => w1.reply StatusInternalServerError (.error "failed creating alert")
      | .ok (alert, w1) =>
        match saveSlice (EventSave fx alert) input.Events w1 with
        | .error w2 => w2.reply StatusInternalServerError (.error "failed creating alert")
        | .ok w2 =>
          match saveSlice (MetaSave fx alert) input.Metas w2 with
          | .error w3 => w3.reply StatusInternalServerError (.error "failed creating alert")
          | .ok w3 =>
            match saveSlice (DecisionSave fx alert) input.Decisions w3 with
            | .error w4 => w4.reply StatusInternalServerError (.error "failed creating alert")
            | .ok w4 => w4.reply StatusOK (.data alert)

/-- Whether `sub` is an initial segment of `s` (used by `Contains`). -/
def startsWith : List Char → List Char → Bool
  | _, [] => true
  | [], _ :: _ => false
  | c :: s, d :: sub => c == d && startsWith s sub

/-- Whether `sub` occurs in `s` as a contiguous run of characters (used by `Contains`). -/
def containsChars : List Char → List Char → Bool
  | [], sub => startsWith [] sub
  | c :: s, sub => startsWith (c :: s) sub || containsChars s sub

/-- Modelled from the spec: the generated predicates `alert.ScenarioContains`,
`alert.SourceScopeContains` and `alert.SourceValueContains` are defined outside
`alerts.go`. Per "the predicate is a contains test", a field matches when the
filter text occurs in it as a substring. -/
def Contains (field sub : String) : Bool := containsChars field.data sub.data

/-- The predicate of source lines 165-169: `alert.And` of the three contains tests. -/
def matchesFilter (scenario sourceScope sourceValue : String) (a : Alert) : Bool :=
  Contains a.Scenario scenario && (Contains a.SourceScope sourceScope &&
    Contains a.SourceValue sourceValue)

/-- Modelled from the spec: `WithDecisions().WithEvents().WithMetas()` are
generated query options defined outside `alerts.go`. Per "each fully populated
with its associated Events, Metas, and Decisions", an alert is loaded with the
rows of the three child tables that reference its identifier. -/
def load (s : Store) (a : Alert) : LoadedAlert :=
  { alert := a
    events := s.events.filter (fun e => e.Owner == a.ID)
    metas := s.metas.filter (fun m => m.Owner == a.ID)
    decisions := s.decisions.filter (fun d => d.Owner == a.ID) }

/-- Source lines 164-173: `Alert.Query().Where(p).With...().All(c.Ectx)`. -/
def QueryAll (fx : Faults) (s : Store) (p : Alert → Bool) : Except String (List LoadedAlert) :=
  if fx.query then .error "query error" else .ok ((s.alerts.filter p).map (load s))

/-- Go `func (c *Controller) FindAlerts(gctx *gin.Context)`, source lines 159-182.
The three arguments are `gctx.Query(...)` of the three parameters, `""` when absent.
The handler does not write, so only the emitted responses are returned. -/
def FindAlerts (fx : Faults) (s : Store) (scenario sourceScope sourceValue : String) :
    List Response :=
  match QueryAll fx s (matchesFilter scenario sourceScope sourceValue) with
  | .error _ => [⟨StatusInternalServerError, .error "failed querying alert"⟩]
  | .ok alerts => [⟨StatusOK, .dataList alerts⟩]

/-! ## Sample data -/

/-- The two events of the sample request. -/
def sampleEvents : List Event := [(⟨⟨11, none⟩, "e1"⟩ : Event), ⟨⟨12, none⟩, "e2"⟩]

/-- The meta of the sample request. -/
def sampleMetas : List Meta := [(⟨"k", "v"⟩ : Meta)]

/-- The two decisions of the sample request. -/
def sampleDecisions : List Decision :=
  [(⟨⟨99, none⟩, "ssh-bf", "ban", 1, 2, "1.2.3.4", "ip"⟩ : Decision),
      ⟨⟨98, none⟩, "ssh-bf", "captcha", 3, 4, "1.2.3.0/24", "range"⟩]

/-- A request body whose mandatory fields are all set: 2 events, 1 meta, 2 decisions. -/
def sampleInput : CreateAlertInput :=
  { MachineId := 7
    Scenario := "ssh-bf"
    BucketId := "b1"
    Message := "brute force"
    EventCount := 2
    StartedAt := ⟨10, none⟩
    StoppedAt := ⟨20, none⟩
    Capacity := 5
    LeakSpeed := 1
    Reprocess := false
    Source := ⟨"ip", "1.2.3.4", "", "", "", "", "", 0, 0⟩
    Events := some sampleEvents
    Metas := some sampleMetas
    Decisions := some sampleDecisions }

/-- A store holding machine 7 and nothing else. -/
def sampleStore : Store := { Store.empty with machines := [⟨7⟩] }

/-- The sample request without metas and with an empty list of decisions. -/
def bareInput : CreateAlertInput := { sampleInput with Metas := none, Decisions := some [] }

/-- The sample request with the `decisions` key absent. -/
def noDecisionsInput : CreateAlertInput := { sampleInput with Decisions := none }

/-- The sample request with a single event whose timestamp and payload are zero-valued. -/
def zeroEventInput : CreateAlertInput := { sampleInput with Events := some [⟨⟨0, none⟩, ""⟩] }

/-- The sample store after the sample request was created in it. -/
def sampleStoreAfter : Store := (CreateAlert Faults.none sampleStore (.ok sampleInput)).store

/-- The scenario in which exactly the insert attempted after `k` earlier attempts fails. -/
def faultAt (k : Nat) : Faults := ⟨false, fun n => n == k, false⟩

/-! ## Loops and single inserts -/

theorem saveSlice_eq {α : Type} (save : α → World → Except World World)
    (xs : Option (List α)) (w : World) :
    saveSlice save xs w = saveEach save (elems xs) w := by
  unfold saveSlice len
  cases h : elems xs with
  | nil => simp [saveEach]
  | cons x rest => simp

theorem saveEach_Save_ok {α : Type} (fx : Faults) (t : Table) (put : α → Store → Store)
    (xs : List α) (w : World)
    (h : ∀ j, j < xs.length → fx.insert (w.saves.length + j) = false) :
    saveEach (fun x => Save fx t (put x)) xs w
      = .ok ⟨xs.foldl (fun s x => put x s) w.store, w.lookups,
          w.saves ++ List.replicate xs.length t⟩ := by
  induction xs generalizing w with
  | nil => simp [saveEach]
  | cons x rest ih =>
    have h0 : fx.insert w.saves.length = false := by simpa using h 0 (by simp)
    simp only [saveEach, Save, h0, Bool.false_eq_true, ↓reduceIte]
    rw [ih]
    · simp [List.replicate_succ, List.append_assoc]
    · intro j hj
      have := h (j + 1) (by simpa using hj)
      simpa [Nat.add_assoc, Nat.add_comm 1 j] using this

theorem saveEach_Save_fail {α : Type} (fx : Faults) (t : Table) (put : α → Store → Store)
    (xs : List α) (w : World) (j : Nat) (hj : j < xs.length)
    (h : ∀ i, i < j → fx.insert (w.saves.length + i) = false)
    (hf : fx.insert (w.saves.length + j) = true) :
    saveEach (fun x => Save fx t (put x)) xs w
      = .error ⟨(xs.take j).foldl (fun s x => put x s) w.store, w.lookups,
          w.saves ++ List.replicate (j + 1) t⟩ := by
  induction xs generalizing w j with
  | nil => simp at hj
  | cons x rest ih =>
    cases j with
    | zero =>
      have h0 : fx.insert w.saves.length = true := by simpa using hf
      simp [saveEach, Save, h0]
    | succ j =>
      have h0 : fx.insert w.saves.length = false := by simpa using h 0 (by simp)
      simp only [saveEach, Save, h0, Bool.false_eq_true, ↓reduceIte]
      rw [ih _ j (by simpa using hj)]
      · simp [List.replicate_succ, List.append_assoc]
      · intro i hi
        have := h (i + 1) (by omega)
        simpa [Nat.add_assoc, Nat.add_comm 1 i] using this
      · simpa [Nat.add_assoc, Nat.add_comm 1 j] using hf

theorem foldl_addEvent (alert : Alert) (xs : List Event) (s : Store) :
    xs.foldl (fun s x => Store.addEvent (eventRow alert x) s) s
      = { s with events := s.events ++ xs.map (eventRow alert) } := by
  induction xs generalizing s with
  | nil => simp
  | cons x rest ih =>
    rw [List.foldl_cons, ih]
    simp [Store.addEvent]

theorem foldl_addMeta (alert : Alert) (xs : List Meta) (s : Store) :
    xs.foldl (fun s x => Store.addMeta (metaRow alert x) s) s
      = { s with metas := s.metas ++ xs.map (metaRow alert) } := by
  induction xs generalizing s with
  | nil => simp
  | cons x rest ih =>
    rw [List.foldl_cons, ih]
    simp [Store.addMeta]

theorem foldl_addDecision (alert : Alert) (xs : List Decision) (s : Store) :
    xs.foldl (fun s x => Store.addDecision (decisionRow alert x) s) s
      = { s with decisions := s.decisions ++ xs.map (decisionRow alert) } := by
  induction xs generalizing s with
  | nil => simp
  | cons x rest ih =>
    rw [List.foldl_cons, ih]
    simp [Store.addDecision]

theorem events_ok (fx : Faults) (alert : Alert) (xs : Option (List Event)) (w : World)
    (h : ∀ j, j < len xs → fx.insert (w.saves.length + j) = false) :
    saveSlice (EventSave fx alert) xs w
      = .ok ⟨{ w.store with events := w.store.events ++ (elems xs).map (eventRow alert) },
          w.lookups, w.saves ++ List.replicate (len xs) .event⟩ := by
  rw [saveSlice_eq]
  have := saveEach_Save_ok fx .event (fun e => Store.addEvent (eventRow alert e)) (elems xs) w h
  rw [foldl_addEvent] at this
  exact this

theorem events_fail (fx : Faults) (alert : Alert) (xs : Option (List Event)) (w : World)
    (j : Nat) (hj : j < len xs)
    (h : ∀ i, i < j → fx.insert (w.saves.length + i) = false)
    (hf : fx.insert (w.saves.length + j) = true) :
    saveSlice (EventSave fx alert) xs w
      = .error ⟨{ w.store with
            events := w.store.events ++ ((elems xs).map (eventRow alert)).take j },
          w.lookups, w.saves ++ List.replicate (j + 1) .event⟩ := by
  rw [saveSlice_eq]
  have := saveEach_Save_fail fx .event (fun e => Store.addEvent (eventRow alert e))
    (elems xs) w j hj h hf
  rw [foldl_addEvent, List.map_take] at this
  exact this

theorem metas_ok (fx : Faults) (alert : Alert) (xs : Option (List Meta)) (w : World)
    (h : ∀ j, j < len xs → fx.insert (w.saves.length + j) = false) :
    saveSlice (MetaSave fx alert) xs w
      = .ok ⟨{ w.store with metas := w.store.metas ++ (elems xs).map (metaRow alert) },
          w.lookups, w.saves ++ List.replicate (len xs) .meta⟩ := by
  rw [saveSlice_eq]
  have := saveEach_Save_ok fx .meta (fun e => Store.addMeta (metaRow alert e)) (elems xs) w h
  rw [foldl_addMeta] at this
  exact this

theorem metas_fail (fx : Faults) (alert : Alert) (xs : Option (List Meta)) (w : World)
    (j : Nat) (hj : j < len xs)
    (h : ∀ i, i < j → fx.insert (w.saves.length + i) = false)
    (hf : fx.insert (w.saves.length + j) = true) :
    saveSlice (MetaSave fx alert) xs w
      = .error ⟨{ w.store with
            metas := w.store.metas ++ ((elems xs).map (metaRow alert)).take j },
          w.lookups, w.saves ++ List.replicate (j + 1) .meta⟩ := by
  rw [saveSlice_eq]
  have := saveEach_Save_fail fx .meta (fun e => Store.addMeta (metaRow alert e))
    (elems xs) w j hj h hf
  rw [foldl_addMeta, List.map_take] at this
  exact this

theorem decisions_ok (fx : Faults) (alert : Alert) (xs : Option (List Decision)) (w : World)
    (h : ∀ j, j < len xs → fx.insert (w.saves.length + j) = false) :
    saveSlice (DecisionSave fx alert) xs w
      = .ok ⟨{ w.store with
            decisions := w.store.decisions ++ (elems xs).map (decisionRow alert) },
          w.lookups, w.saves ++ List.replicate (len xs) .decision⟩ := by
  rw [saveSlice_eq]
  have := saveEach_Save_ok fx .decision (fun e => Store.addDecision (decisionRow alert e))
    (elems xs) w h
  rw [foldl_addDecision] at this
  exact this

theorem decisions_fail (fx : Faults) (alert : Alert) (xs : Option (List Decision)) (w : World)
    (j : Nat) (hj : j < len xs)
    (h : ∀ i, i < j → fx.insert (w.saves.length + i) = false)
    (hf : fx.insert (w.saves.length + j) = true) :
    saveSlice (DecisionSave fx alert) xs w
      = .error ⟨{ w.store with
            decisions := w.store.decisions ++ ((elems xs).map (decisionRow alert)).take j },
          w.lookups, w.saves ++ List.replicate (j + 1) .decision⟩ := by
  rw [saveSlice_eq]
  have := saveEach_Save_fail fx .decision (fun e => Store.addDecision (decisionRow alert e))
    (elems xs) w j hj h hf
  rw [foldl_addDecision, List.map_take] at this
  exact this

/-! ## Runs of `CreateAlert` on a bound request with a resolved machine -/

theorem bind_ok (input : CreateAlertInput) (hv : violations input = []) :
    ShouldBindJSON (.ok input) = .ok input := by
  simp [ShouldBindJSON, hv]

theorem bind_ok_iff (body : Except String CreateAlertInput) (input : CreateAlertInput) :
    ShouldBindJSON body = .ok input ↔ body = .ok input ∧ violations input = [] := by
  cases body with
  | error msg => simp [ShouldBindJSON]
  | ok i =>
    cases h : violations i with
    | nil =>
      simp only [ShouldBindJSON, h, Except.ok.injEq]
      constructor
      · intro e
        subst e
        exact ⟨rfl, h⟩
      · intro e
        exact e.1
    | cons f fs =>
      simp only [ShouldBindJSON, h, Except.ok.injEq, reduceCtorEq, false_iff, not_and]
      intro e
      subst e
      simp [h]

theorem run_success (fx : Faults) (s : Store) (input : CreateAlertInput) (machine : Machine)
    (hv : violations input = [])
    (hm : QueryMachine fx s input.MachineId = .ok machine)
    (hf : ∀ k, k < 1 + len input.Events + len input.Metas + len input.Decisions →
      fx.insert k = false) :
    CreateAlert fx s (.ok input) =
      { store :=
          { machines := s.machines
            alerts := s.alerts ++ [newAlert s.nextAlertID input machine]
            events := s.events ++
              (elems input.Events).map (eventRow (newAlert s.nextAlertID input machine))
            metas := s.metas ++
              (elems input.Metas).map (metaRow (newAlert s.nextAlertID input machine))
            decisions := s.decisions ++
              (elems input.Decisions).map (decisionRow (newAlert s.nextAlertID input machine))
            nextAlertID := s.nextAlertID + 1 }
        lookups := [input.MachineId]
        saves := Table.alert :: (List.replicate (len input.Events) Table.event ++
          (List.replicate (len input.Metas) Table.meta ++
            List.replicate (len input.Decisions) Table.decision))
        emitted := [⟨StatusOK, .data (newAlert s.nextAlertID input machine)⟩] } := by
  have h0 : fx.insert 0 = false := hf 0 (by omega)
  unfold CreateAlert
  rw [bind_ok input hv]
  simp only [hm, AlertSave, Save, List.length_nil, h0, Bool.false_eq_true, ↓reduceIte]
  rw [events_ok]
  · simp only []
    rw [metas_ok]
    · simp only []
      rw [decisions_ok]
      · simp [World.reply, Store.addAlert]
      · intro j hj
        apply hf
        simp
        omega
    · intro j hj
      apply hf
      simp
      omega
  · intro j hj
    apply hf
    simp
    omega

theorem run_fault (fx : Faults) (s : Store) (input : CreateAlertInput) (machine : Machine)
    (hv : violations input = [])
    (hm : QueryMachine fx s input.MachineId = .ok machine)
    (k : Nat) (hk : k < 1 + len input.Events + len input.Metas + len input.Decisions)
    (hlt : ∀ j, j < k → fx.insert j = false) (hf : fx.insert k = true) :
    CreateAlert fx s (.ok input) =
      { store :=
          if k = 0 then s else
          { machines := s.machines
            alerts := s.alerts ++ [newAlert s.nextAlertID input machine]
            events := s.events ++
              ((elems input.Events).map
                (eventRow (newAlert s.nextAlertID input machine))).take (k - 1)
            metas := s.metas ++
              ((elems input.Metas).map
                (metaRow (newAlert s.nextAlertID input machine))).take (k - 1 - len input.Events)
            decisions := s.decisions ++
              ((elems input.Decisions).map
                (decisionRow (newAlert s.nextAlertID input machine))).take
                  (k - 1 - len input.Events - len input.Metas)
            nextAlertID := s.nextAlertID + 1 }
        lookups := [input.MachineId]
        saves := (Table.alert :: (List.replicate (len input.Events) Table.event ++
          (List.replicate (len input.Metas) Table.meta ++
            List.replicate (len input.Decisions) Table.decision))).take (k + 1)
        emitted := [⟨StatusInternalServerError, .error "failed creating alert"⟩] } := by
  unfold CreateAlert
  rw [bind_ok input hv]
  cases k with
  | zero =>
    simp [hm, AlertSave, Save, hf, World.reply]
  | succ j =>
    have h0 : fx.insert 0 = false := hlt 0 (by omega)
    simp only [hm, AlertSave, Save, List.length_nil, h0, Bool.false_eq_true, ↓reduceIte]
    by_cases c1 : j < len input.Events
    · rw [events_fail fx _ _ _ j c1]
      · have e1 : j - len input.Events = 0 := by omega
        have e2 : min (j + 1) (len input.Events) = j + 1 := by omega
        have e3 : j + 1 - len input.Events = 0 := by omega
        simp [World.reply, Store.addAlert, List.take_append_eq_append_take,
          List.take_replicate, e1, e2, e3]
      · intro i hi
        apply hlt
        simp
        omega
      · simpa [Nat.add_comm] using hf
    · rw [events_ok]
      · simp only []
        by_cases c2 : j - len input.Events < len input.Metas
        · rw [metas_fail fx _ _ _ (j - len input.Events) c2]
          · have e1 : j - len input.Events - len input.Metas = 0 := by omega
            have e2 : min (j + 1) (len input.Events) = len input.Events := by omega
            have e3 : min (j + 1 - len input.Events) (len input.Metas)
                = j - len input.Events + 1 := by omega
            have e4 : j + 1 - len input.Events - len input.Metas = 0 := by omega
            have e5 : ((elems input.Events).map
                (eventRow (newAlert s.nextAlertID input machine))).take j
                = (elems input.Events).map (eventRow (newAlert s.nextAlertID input machine)) := by
              apply List.take_of_length_le
              simp only [List.length_map]
              unfold len at c1
              omega
            simp [World.reply, Store.addAlert, List.take_append_eq_append_take,
              List.take_replicate, e1, e2, e3, e4, e5]
          · intro i hi
            apply hlt
            simp
            omega
          · have e : ∀ n, n = j + 1 → fx.insert n = true := fun n h => h ▸ hf
            apply e
            simp; omega
        · rw [metas_ok]
          · simp only []
            have c3 : j - len input.Events - len input.Metas < len input.Decisions := by omega
            rw [decisions_fail fx _ _ _ (j - len input.Events - len input.Metas) c3]
            · have e2 : min (j + 1) (len input.Events) = len input.Events := by omega
              have e3 : min (j + 1 - len input.Events) (len input.Metas)
                  = len input.Metas := by omega
              have e4 : min (j + 1 - len input.Events - len input.Metas) (len input.Decisions)
                  = j - len input.Events - len input.Metas + 1 := by omega
              have e5 : ((elems input.Events).map
                  (eventRow (newAlert s.nextAlertID input machine))).take j
                  = (elems input.Events).map
                      (eventRow (newAlert s.nextAlertID input machine)) := by
                apply List.take_of_length_le
                simp only [List.length_map]
                unfold len at c1
                omega
              have e6 : ((elems input.Metas).map
                  (metaRow (newAlert s.nextAlertID input machine))).take (j - len input.Events)
                  = (elems input.Metas).map
                      (metaRow (newAlert s.nextAlertID input machine)) := by
                apply List.take_of_length_le
                simp only [List.length_map]
                unfold len at c2
                unfold len
                omega
              simp [World.reply, Store.addAlert, List.take_append_eq_append_take,
                List.take_replicate, e2, e3, e4, e5, e6]
            · intro i hi
              apply hlt
              simp
              omega
            · have e : ∀ n, n = j + 1 → fx.insert n = true := fun n h => h ▸ hf
              apply e
              simp; omega
          · intro i hi
            apply hlt
            simp
            omega
      · intro i hi
        apply hlt
        simp
        omega

/-- Among the first `n` insert attempts either none fails or there is a first one that fails. -/
theorem first_fault (f : Nat → Bool) (n : Nat) :
    (∀ k, k < n → f k = false) ∨ ∃ k, k < n ∧ f k = true ∧ ∀ j, j < k → f j = false := by
  induction n with
  | zero => left; intro k hk; omega
  | succ n ih =>
    rcases ih with h | ⟨k, hk, hf, hlt⟩
    · cases hn : f n with
      | false =>
        left
        intro k hk
        rcases Nat.lt_succ_iff_lt_or_eq.mp hk with h1 | h1
        · exact h k h1
        · rw [h1]; exact hn
      | true => exact Or.inr ⟨n, by omega, hn, h⟩
    · exact Or.inr ⟨k, by omega, hf, hlt⟩

theorem any_insert_false (f : Nat → Bool) (n : Nat) (h : ∀ k, k < n → f k = false) :
    (List.range n).any f = false := by
  rw [List.any_eq_false]
  intro k hk
  simp [h k (List.mem_range.mp hk)]

theorem any_insert_true (f : Nat → Bool) (n k : Nat) (hk : k < n) (hf : f k = true) :
    (List.range n).any f = true := by
  rw [List.any_eq_true]
  exact ⟨k, List.mem_range.mpr hk, hf⟩

/-! ## Substring test -/

theorem startsWith_iff (s sub : List Char) : startsWith s sub = true ↔ sub <+: s := by
  induction s generalizing sub with
  | nil =>
    cases sub with
    | nil => simp [startsWith]
    | cons d sub => simp [startsWith]
  | cons c s ih =>
    cases sub with
    | nil => simp [startsWith]
    | cons d sub =>
      simp only [startsWith, Bool.and_eq_true, beq_iff_eq, ih, List.cons_prefix_cons]
      constructor
      · rintro ⟨h1, h2⟩
        exact ⟨h1.symm, h2⟩
      · rintro ⟨h1, h2⟩
        exact ⟨h1.symm, h2⟩

theorem containsChars_iff (s sub : List Char) : containsChars s sub = true ↔ sub <:+: s := by
  induction s with
  | nil =>
    simp only [containsChars, startsWith_iff, List.prefix_nil, List.infix_nil]
  | cons c s ih =>
    simp only [containsChars, Bool.or_eq_true, startsWith_iff, ih, List.infix_cons_iff]

theorem Contains_iff (field sub : String) : Contains field sub = true ↔ sub.data <:+: field.data :=
  containsChars_iff field.data sub.data

theorem Contains_empty (field : String) : Contains field "" = true := by
  rw [Contains_iff]
  exact List.nil_infix

theorem matchesFilter_iff (scenario sourceScope sourceValue : String) (a : Alert) :
    matchesFilter scenario sourceScope sourceValue a = true ↔
      scenario.data <:+: a.Scenario.data ∧ sourceScope.data <:+: a.SourceScope.data ∧
        sourceValue.data <:+: a.SourceValue.data := by
  simp only [matchesFilter, Bool.and_eq_true, Contains_iff]

theorem matchesFilter_empty (a : Alert) : matchesFilter "" "" "" a = true := by
  simp [matchesFilter, Contains_empty]

theorem findAlerts_ok (fx : Faults) (s : Store) (scenario sourceScope sourceValue : String)
    (hq : fx.query = false) :
    FindAlerts fx s scenario sourceScope sourceValue
      = [⟨StatusOK, .dataList
          ((s.alerts.filter (matchesFilter scenario sourceScope sourceValue)).map (load s))⟩] := by
  simp [FindAlerts, QueryAll, hq]

theorem findAlerts_fail (fx : Faults) (s : Store) (scenario sourceScope sourceValue : String)
    (hq : fx.query = true) :
    FindAlerts fx s scenario sourceScope sourceValue
      = [⟨StatusInternalServerError, .error "failed querying alert"⟩] := by
  simp [FindAlerts, QueryAll, hq]

theorem map_alert_load (s : Store) (as : List Alert) :
    (as.map (load s)).map (fun r => r.alert) = as := by
  induction as with
  | nil => rfl
  | cons a rest ih =>
    simp only [List.map_cons, ih]
    rfl

/-! ## Referential integrity -/

theorem Store.empty_WF : Store.empty.WF := by
  constructor <;> simp [Store.empty]

theorem queryMachine_ok (fx : Faults) (s : Store) (machineId : Int) (machine : Machine)
    (h : QueryMachine fx s machineId = .ok machine) :
    fx.lookup = false ∧ machine ∈ s.machines ∧ machine.ID = machineId := by
  unfold QueryMachine at h
  cases hl : fx.lookup with
  | true => simp [hl] at h
  | false =>
    simp only [hl, Bool.false_eq_true, ↓reduceIte] at h
    cases hfind : s.machines.find? (fun m => m.ID == machineId) with
    | none => simp [hfind] at h
    | some m =>
      simp only [hfind, Except.ok.injEq] at h
      subst h
      refine ⟨rfl, List.mem_of_find?_eq_some hfind, ?_⟩
      have := List.find?_some hfind
      simpa using this

theorem bind_error (input : CreateAlertInput) (hv : violations input ≠ []) :
    ShouldBindJSON (.ok input) = .error (.validation (violations input)) := by
  cases h : violations input with
  | nil => exact absurd h hv
  | cons f fs => simp [ShouldBindJSON, h]

theorem run_invalid (fx : Faults) (s : Store) (input : CreateAlertInput)
    (hv : violations input ≠ []) :
    CreateAlert fx s (.ok input) =
      { store := s, lookups := [], saves := []
        emitted := [⟨StatusBadRequest, .error (BindError.validation (violations input)).Error⟩] } := by
  unfold CreateAlert
  rw [bind_error input hv]
  rfl

theorem run_unresolved (fx : Faults) (s : Store) (input : CreateAlertInput) (e : String)
    (hv : violations input = [])
    (hm : QueryMachine fx s input.MachineId = .error e) :
    CreateAlert fx s (.ok input) =
      { store := s, lookups := [input.MachineId], saves := []
        emitted := [⟨StatusInternalServerError,
          .error "failed creating alert, machineId not exist"⟩] } := by
  unfold CreateAlert
  rw [bind_ok input hv]
  simp only [hm]
  rfl

/-- Every run of `CreateAlert` keeps the store referentially intact. -/
theorem createAlert_WF (fx : Faults) (s : Store) (body : Except String CreateAlertInput)
    (hwf : s.WF) : (CreateAlert fx s body).store.WF := by
  cases body with
  | error msg => exact hwf
  | ok input =>
    by_cases hv : violations input = []
    · cases hm : QueryMachine fx s input.MachineId with
      | error e => rw [run_unresolved fx s input e hv hm]; exact hwf
      | ok machine =>
        have grow : ∀ (es : List EventRow) (ms : List MetaRow) (ds : List DecisionRow),
            (∀ r ∈ es, r.Owner = s.nextAlertID) → (∀ r ∈ ms, r.Owner = s.nextAlertID) →
            (∀ r ∈ ds, r.Owner = s.nextAlertID) →
            Store.WF { machines := s.machines
                       alerts := s.alerts ++ [newAlert s.nextAlertID input machine]
                       events := s.events ++ es
                       metas := s.metas ++ ms
                       decisions := s.decisions ++ ds
                       nextAlertID := s.nextAlertID + 1 } := by
          intro es ms ds he hme hd
          constructor
          · intro a ha
            rcases List.mem_append.mp ha with h | h
            · have := hwf.alerts_lt a h
              show a.ID < s.nextAlertID + 1
              omega
            · have : a = newAlert s.nextAlertID input machine := by simpa using h
              subst this
              show s.nextAlertID < s.nextAlertID + 1
              omega
          · intro r hr
            rcases List.mem_append.mp hr with h | h
            · have := hwf.events_lt r h
              show r.Owner < s.nextAlertID + 1
              omega
            · have := he r h
              show r.Owner < s.nextAlertID + 1
              omega
          · intro r hr
            rcases List.mem_append.mp hr with h | h
            · have := hwf.metas_lt r h
              show r.Owner < s.nextAlertID + 1
              omega
            · have := hme r h
              show r.Owner < s.nextAlertID + 1
              omega
          · intro r hr
            rcases List.mem_append.mp hr with h | h
            · have := hwf.decisions_lt r h
              show r.Owner < s.nextAlertID + 1
              omega
            · have := hd r h
              show r.Owner < s.nextAlertID + 1
              omega
        have oe : ∀ xs : List Event, ∀ r ∈ xs.map (eventRow (newAlert s.nextAlertID input machine)),
            r.Owner = s.nextAlertID := by
          intro xs r hr
          obtain ⟨x, _, rfl⟩ := List.mem_map.mp hr
          rfl
        have om : ∀ xs : List Meta, ∀ r ∈ xs.map (metaRow (newAlert s.nextAlertID input machine)),
            r.Owner = s.nextAlertID := by
          intro xs r hr
          obtain ⟨x, _, rfl⟩ := List.mem_map.mp hr
          rfl
        have od : ∀ xs : List Decision,
            ∀ r ∈ xs.map (decisionRow (newAlert s.nextAlertID input machine)),
            r.Owner = s.nextAlertID := by
          intro xs r hr
          obtain ⟨x, _, rfl⟩ := List.mem_map.mp hr
          rfl
        rcases first_fault fx.insert
            (1 + len input.Events + len input.Metas + len input.Decisions) with h | ⟨k, hk, hf, hlt⟩
        · rw [run_success fx s input machine hv hm h]
          exact grow _ _ _ (oe _) (om _) (od _)
        · rw [run_fault fx s input machine hv hm k hk hlt hf]
          by_cases hk0 : k = 0
          · simp only [hk0, ↓reduceIte]
            exact hwf
          · simp only [hk0, ↓reduceIte]
            exact grow _ _ _
              (fun r hr => oe _ r (List.mem_of_mem_take hr))
              (fun r hr => om _ r (List.mem_of_mem_take hr))
              (fun r hr => od _ r (List.mem_of_mem_take hr))
    · rw [run_invalid fx s input hv]
      exact hwf

/-! ## Reading back what was written -/

theorem filter_owner_lt {ρ : Type} (owner : ρ → Int) (rows : List ρ) (n : Int)
    (h : ∀ r ∈ rows, owner r < n) : rows.filter (fun r => owner r == n) = [] := by
  rw [List.filter_eq_nil_iff]
  intro r hr
  have := h r hr
  simp only [beq_iff_eq]
  omega

theorem filter_owner_eq {ρ : Type} (owner : ρ → Int) (rows : List ρ) (n : Int)
    (h : ∀ r ∈ rows, owner r = n) : rows.filter (fun r => owner r == n) = rows := by
  rw [List.filter_eq_self]
  intro r hr
  simp [h r hr]

theorem events_back (alert : Alert) (xs : List Event) :
    (xs.map (eventRow alert)).map (fun r => (⟨r.Time, r.Serialized⟩ : Event)) = xs := by
  induction xs with
  | nil => rfl
  | cons x rest ih =>
    simp only [List.map_cons, ih]
    rfl

theorem metas_back (alert : Alert) (xs : List Meta) :
    (xs.map (metaRow alert)).map (fun r => (⟨r.Key, r.Value⟩ : Meta)) = xs := by
  induction xs with
  | nil => rfl
  | cons x rest ih =>
    simp only [List.map_cons, ih]
    rfl

theorem decisions_back (alert : Alert) (xs : List Decision) :
    (xs.map (decisionRow alert)).map
      (fun r => (⟨r.Until, r.Scenario, r.DecisionType, r.SourceIpStart, r.SourceIpEnd,
        r.SourceValue, r.SourceScope⟩ : Decision)) = xs := by
  induction xs with
  | nil => rfl
  | cons x rest ih =>
    simp only [List.map_cons, ih]
    rfl

theorem filter_matches_empty (as : List Alert) : as.filter (matchesFilter "" "" "") = as := by
  rw [List.filter_eq_self]
  intro a _
  exact matchesFilter_empty a

/-- When the twelve `required` fields other than `Decisions` hold a non-zero
value, the only possible violation is a nil `Decisions` slice. -/
theorem violations_of_mandatory (input : CreateAlertInput)
    (h1 : input.MachineId ≠ 0) (h2 : input.Scenario ≠ "") (h3 : input.BucketId ≠ "")
    (h4 : input.Message ≠ "") (h5 : input.EventCount ≠ 0) (h6 : input.StartedAt ≠ ⟨0, none⟩)
    (h7 : input.StoppedAt ≠ ⟨0, none⟩) (h8 : input.Capacity ≠ 0) (h9 : input.LeakSpeed ≠ 0)
    (h10 : input.Source.Scope ≠ "") (h11 : input.Source.Value ≠ "")
    (h12 : input.Events ≠ none) :
    violations input = if requiredSlice input.Decisions then [] else ["Decisions"] := by
  have e12 : input.Events.isSome = true := by
    cases hx : input.Events with
    | none => exact absurd hx h12
    | some es => rfl
  simp [violations, requiredInt, requiredString, requiredTime, requiredSlice, h1, h2, h3, h4,
    h5, h6, h7, h8, h9, h10, h11, e12]

theorem violations_nil_iff (input : CreateAlertInput) :
    violations input = [] ↔
      requiredInt input.MachineId = true ∧ requiredString input.Scenario = true ∧
      requiredString input.BucketId = true ∧ requiredString input.Message = true ∧
      requiredInt input.EventCount = true ∧ requiredTime input.StartedAt = true ∧
      requiredTime input.StoppedAt = true ∧ requiredInt input.Capacity = true ∧
      requiredInt input.LeakSpeed = true ∧ requiredString input.Source.Scope = true ∧
      requiredString input.Source.Value = true ∧ requiredSlice input.Events = true ∧
      requiredSlice input.Decisions = true := by
  simp only [violations, List.append_eq_nil, ite_eq_left_iff, Bool.not_eq_true,
    reduceCtorEq, imp_false, Bool.not_eq_false, and_assoc]

theorem elems_getD {α : Type} (xs : Option (List α)) : elems xs = xs.getD [] := by
  cases xs <;> rfl

theorem sampleStore_WF : sampleStore.WF := by
  constructor <;> simp [sampleStore, Store.empty]

/-- A zero instant that carries a location is not the zero value of `time.Time`
and passes the `required` tag. -/
theorem zero_instant_with_location_passes :
    violations { sampleInput with StartedAt := ⟨0, some 0⟩ } = [] ∧
    violations { sampleInput with StartedAt := ⟨0, none⟩ } = ["StartedAt"] := by
  decide

/-! ## Claims -/

/-- C1: on a valid request with events `es`, metas `ms` and decisions `ds`
whose machine resolves and with no failing insert, CreateAlert answers OK with
the created alert, and the store becomes the old store plus that one alert, one
row per element of `es`, of `ms` and of `ds`, each holding the submitted fields
and the identifier of the new alert; the alert references the resolved machine;
the rows present before are kept as they were. -/
theorem createAlert_success_persists_all (fx : Faults) (s : Store) (input : CreateAlertInput)
    (machine : Machine) (es : List Event) (ms : List Meta) (ds : List Decision)
    (hv : violations input = [])
    (hes : input.Events = some es) (hms : input.Metas.getD [] = ms)
    (hds : input.Decisions = some ds)
    (hm : QueryMachine fx s input.MachineId = .ok machine)
    (hf : ∀ k, k < 1 + es.length + ms.length + ds.length → fx.insert k = false) :
    CreateAlert fx s (.ok input) =
      { store :=
          { machines := s.machines
            alerts := s.alerts ++ [({
                ID := s.nextAlertID,
                Scenario := input.Scenario,
                BucketId := input.BucketId,
                Message := input.Message,
                EventsCount := input.EventCount,
                StartedAt := input.StartedAt,
                StoppedAt := input.StoppedAt,
                SourceScope := input.Source.Scope,
                SourceValue := input.Source.Value,
                SourceIp := input.Source.Ip,
                SourceRange := input.Source.Range,
                SourceAsNumber := input.Source.AsNumber,
                SourceAsName := input.Source.AsName,
                SourceCountry := input.Source.Country,
                SourceLatitude := input.Source.Latitude,
                SourceLongitude := input.Source.Longitude,
                Capacity := input.Capacity,
                LeakSpeed := input.LeakSpeed,
                Reprocess := input.Reprocess,
                Owner := machine.ID } : Alert)]
            events := s.events ++ es.map (fun e => (⟨e.Time, e.Serialized, s.nextAlertID⟩ : EventRow))
            metas := s.metas ++ ms.map (fun m => (⟨m.Key, m.Value, s.nextAlertID⟩ : MetaRow))
            decisions := s.decisions ++ ds.map (fun d => (⟨d.Until, d.Scenario, d.DecisionType, d.SourceIpStart,
              d.SourceIpEnd, d.SourceValue, d.SourceScope, s.nextAlertID⟩ : DecisionRow))
            nextAlertID := s.nextAlertID + 1 }
        lookups := [input.MachineId]
        saves := Table.alert :: (List.replicate es.length Table.event ++
          (List.replicate ms.length Table.meta ++ List.replicate ds.length Table.decision))
        emitted := [⟨StatusOK, .data ({
                ID := s.nextAlertID,
                Scenario := input.Scenario,
                BucketId := input.BucketId,
                Message := input.Message,
                EventsCount := input.EventCount,
                StartedAt := input.StartedAt,
                StoppedAt := input.StoppedAt,
                SourceScope := input.Source.Scope,
                SourceValue := input.Source.Value,
                SourceIp := input.Source.Ip,
                SourceRange := input.Source.Range,
                SourceAsNumber := input.Source.AsNumber,
                SourceAsName := input.Source.AsName,
                SourceCountry := input.Source.Country,
                SourceLatitude := input.Source.Latitude,
                SourceLongitude := input.Source.Longitude,
                Capacity := input.Capacity,
                LeakSpeed := input.LeakSpeed,
                Reprocess := input.Reprocess,
                Owner := machine.ID } : Alert)⟩] } ∧
    ((CreateAlert fx s (.ok input)).store.alerts.length = s.alerts.length + 1 ∧
      (CreateAlert fx s (.ok input)).store.events.length = s.events.length + es.length ∧
      (CreateAlert fx s (.ok input)).store.metas.length = s.metas.length + ms.length ∧
      (CreateAlert fx s (.ok input)).store.decisions.length
        = s.decisions.length + ds.length) ∧
    ((∀ a ∈ (CreateAlert fx s (.ok input)).store.alerts.drop s.alerts.length,
        a.ID = s.nextAlertID ∧ a.Owner = machine.ID) ∧
      (∀ r ∈ (CreateAlert fx s (.ok input)).store.events.drop s.events.length,
        r.Owner = s.nextAlertID) ∧
      (∀ r ∈ (CreateAlert fx s (.ok input)).store.metas.drop s.metas.length,
        r.Owner = s.nextAlertID) ∧
      (∀ r ∈ (CreateAlert fx s (.ok input)).store.decisions.drop s.decisions.length,
        r.Owner = s.nextAlertID)) ∧
    (machine ∈ s.machines ∧ machine.ID = input.MachineId) := by
  have e1 : elems input.Events = es := by rw [hes]; rfl
  have e2 : elems input.Metas = ms := by rw [elems_getD, hms]
  have e3 : elems input.Decisions = ds := by rw [hds]; rfl
  have hrun : CreateAlert fx s (.ok input) =
      { store :=
          { machines := s.machines
            alerts := s.alerts ++ [({
                ID := s.nextAlertID,
                Scenario := input.Scenario,
                BucketId := input.BucketId,
                Message := input.Message,
                EventsCount := input.EventCount,
                StartedAt := input.StartedAt,
                StoppedAt := input.StoppedAt,
                SourceScope := input.Source.Scope,
                SourceValue := input.Source.Value,
                SourceIp := input.Source.Ip,
                SourceRange := input.Source.Range,
                SourceAsNumber := input.Source.AsNumber,
                SourceAsName := input.Source.AsName,
                SourceCountry := input.Source.Country,
                SourceLatitude := input.Source.Latitude,
                SourceLongitude := input.Source.Longitude,
                Capacity := input.Capacity,
                LeakSpeed := input.LeakSpeed,
                Reprocess := input.Reprocess,
                Owner := machine.ID } : Alert)]
            events := s.events ++ es.map (fun e => (⟨e.Time, e.Serialized, s.nextAlertID⟩ : EventRow))
            metas := s.metas ++ ms.map (fun m => (⟨m.Key, m.Value, s.nextAlertID⟩ : MetaRow))
            decisions := s.decisions ++ ds.map (fun d => (⟨d.Until, d.Scenario, d.DecisionType, d.SourceIpStart,
              d.SourceIpEnd, d.SourceValue, d.SourceScope, s.nextAlertID⟩ : DecisionRow))
            nextAlertID := s.nextAlertID + 1 }
        lookups := [input.MachineId]
        saves := Table.alert :: (List.replicate es.length Table.event ++
          (List.replicate ms.length Table.meta ++ List.replicate ds.length Table.decision))
        emitted := [⟨StatusOK, .data ({
                ID := s.nextAlertID,
                Scenario := input.Scenario,
                BucketId := input.BucketId,
                Message := input.Message,
                EventsCount := input.EventCount,
                StartedAt := input.StartedAt,
                StoppedAt := input.StoppedAt,
                SourceScope := input.Source.Scope,
                SourceValue := input.Source.Value,
                SourceIp := input.Source.Ip,
                SourceRange := input.Source.Range,
                SourceAsNumber := input.Source.AsNumber,
                SourceAsName := input.Source.AsName,
                SourceCountry := input.Source.Country,
                SourceLatitude := input.Source.Latitude,
                SourceLongitude := input.Source.Longitude,
                Capacity := input.Capacity,
                LeakSpeed := input.LeakSpeed,
                Reprocess := input.Reprocess,
                Owner := machine.ID } : Alert)⟩] } := by
    rw [run_success fx s input machine hv hm (by simpa only [len, e1, e2, e3] using hf)]
    simp only [len, e1, e2, e3]
    rfl
  have hq := queryMachine_ok fx s input.MachineId machine hm
  refine ⟨hrun, ?_, ?_, hq.2.1, hq.2.2⟩
  · rw [hrun]
    simp
  · rw [hrun]
    refine ⟨?_, ?_, ?_, ?_⟩
    · intro a ha
      simp only [List.drop_left] at ha
      have : a = _ := List.mem_singleton.mp ha
      subst this
      exact ⟨rfl, rfl⟩
    · intro r hr
      simp only [List.drop_left] at hr
      obtain ⟨x, _, rfl⟩ := List.mem_map.mp hr
      rfl
    · intro r hr
      simp only [List.drop_left] at hr
      obtain ⟨x, _, rfl⟩ := List.mem_map.mp hr
      rfl
    · intro r hr
      simp only [List.drop_left] at hr
      obtain ⟨x, _, rfl⟩ := List.mem_map.mp hr
      rfl

theorem createAlert_success_persists_all_witness :
    violations sampleInput = [] ∧
    sampleInput.Events = some sampleEvents ∧
    sampleInput.Metas.getD [] = sampleMetas ∧
    sampleInput.Decisions = some sampleDecisions ∧
    QueryMachine Faults.none sampleStoreAfter sampleInput.MachineId = .ok ⟨7⟩ ∧
    sampleStoreAfter.events.length = 2 ∧
    (CreateAlert Faults.none sampleStoreAfter (.ok sampleInput)).store.alerts.map
        (fun a => (a.ID, a.Scenario, a.Owner)) = [(1, "ssh-bf", 7), (2, "ssh-bf", 7)] ∧
    (CreateAlert Faults.none sampleStoreAfter (.ok sampleInput)).store.events
      = [⟨⟨11, none⟩, "e1", 1⟩, ⟨⟨12, none⟩, "e2", 1⟩,
          ⟨⟨11, none⟩, "e1", 2⟩, ⟨⟨12, none⟩, "e2", 2⟩] ∧
    (CreateAlert Faults.none sampleStoreAfter (.ok sampleInput)).store.metas
      = [⟨"k", "v", 1⟩, ⟨"k", "v", 2⟩] ∧
    (CreateAlert Faults.none sampleStoreAfter (.ok sampleInput)).store.decisions
      = [⟨⟨99, none⟩, "ssh-bf", "ban", 1, 2, "1.2.3.4", "ip", 1⟩,
          ⟨⟨98, none⟩, "ssh-bf", "captcha", 3, 4, "1.2.3.0/24", "range", 1⟩,
          ⟨⟨99, none⟩, "ssh-bf", "ban", 1, 2, "1.2.3.4", "ip", 2⟩,
          ⟨⟨98, none⟩, "ssh-bf", "captcha", 3, 4, "1.2.3.0/24", "range", 2⟩] ∧
    (CreateAlert Faults.none sampleStoreAfter (.ok sampleInput) =
      { store :=
          { machines := sampleStoreAfter.machines
            alerts := sampleStoreAfter.alerts ++ [({
                ID := sampleStoreAfter.nextAlertID,
                Scenario := sampleInput.Scenario,
                BucketId := sampleInput.BucketId,
                Message := sampleInput.Message,
                EventsCount := sampleInput.EventCount,
                StartedAt := sampleInput.StartedAt,
                StoppedAt := sampleInput.StoppedAt,
                SourceScope := sampleInput.Source.Scope,
                SourceValue := sampleInput.Source.Value,
                SourceIp := sampleInput.Source.Ip,
                SourceRange := sampleInput.Source.Range,
                SourceAsNumber := sampleInput.Source.AsNumber,
                SourceAsName := sampleInput.Source.AsName,
                SourceCountry := sampleInput.Source.Country,
                SourceLatitude := sampleInput.Source.Latitude,
                SourceLongitude := sampleInput.Source.Longitude,
                Capacity := sampleInput.Capacity,
                LeakSpeed := sampleInput.LeakSpeed,
                Reprocess := sampleInput.Reprocess,
                Owner := (⟨7⟩ : Machine).ID } : Alert)]
            events := sampleStoreAfter.events ++ sampleEvents.map (fun e => (⟨e.Time, e.Serialized, sampleStoreAfter.nextAlertID⟩ : EventRow))
            metas := sampleStoreAfter.metas ++ sampleMetas.map (fun m => (⟨m.Key, m.Value, sampleStoreAfter.nextAlertID⟩ : MetaRow))
            decisions := sampleStoreAfter.decisions ++ sampleDecisions.map (fun d => (⟨d.Until, d.Scenario, d.DecisionType, d.SourceIpStart,
              d.SourceIpEnd, d.SourceValue, d.SourceScope, sampleStoreAfter.nextAlertID⟩ : DecisionRow))
            nextAlertID := sampleStoreAfter.nextAlertID + 1 }
        lookups := [sampleInput.MachineId]
        saves := Table.alert :: (List.replicate sampleEvents.length Table.event ++
          (List.replicate sampleMetas.length Table.meta ++ List.replicate sampleDecisions.length Table.decision))
        emitted := [⟨StatusOK, .data ({
                ID := sampleStoreAfter.nextAlertID,
                Scenario := sampleInput.Scenario,
                BucketId := sampleInput.BucketId,
                Message := sampleInput.Message,
                EventsCount := sampleInput.EventCount,
                StartedAt := sampleInput.StartedAt,
                StoppedAt := sampleInput.StoppedAt,
                SourceScope := sampleInput.Source.Scope,
                SourceValue := sampleInput.Source.Value,
                SourceIp := sampleInput.Source.Ip,
                SourceRange := sampleInput.Source.Range,
                SourceAsNumber := sampleInput.Source.AsNumber,
                SourceAsName := sampleInput.Source.AsName,
                SourceCountry := sampleInput.Source.Country,
                SourceLatitude := sampleInput.Source.Latitude,
                SourceLongitude := sampleInput.Source.Longitude,
                Capacity := sampleInput.Capacity,
                LeakSpeed := sampleInput.LeakSpeed,
                Reprocess := sampleInput.Reprocess,
                Owner := (⟨7⟩ : Machine).ID } : Alert)⟩] } ∧
    ((CreateAlert Faults.none sampleStoreAfter (.ok sampleInput)).store.alerts.length = sampleStoreAfter.alerts.length + 1 ∧
      (CreateAlert Faults.none sampleStoreAfter (.ok sampleInput)).store.events.length = sampleStoreAfter.events.length + sampleEvents.length ∧
      (CreateAlert Faults.none sampleStoreAfter (.ok sampleInput)).store.metas.length = sampleStoreAfter.metas.length + sampleMetas.length ∧
      (CreateAlert Faults.none sampleStoreAfter (.ok sampleInput)).store.decisions.length
        = sampleStoreAfter.decisions.length + sampleDecisions.length) ∧
    ((∀ a ∈ (CreateAlert Faults.none sampleStoreAfter (.ok sampleInput)).store.alerts.drop sampleStoreAfter.alerts.length,
        a.ID = sampleStoreAfter.nextAlertID ∧ a.Owner = (⟨7⟩ : Machine).ID) ∧
      (∀ r ∈ (CreateAlert Faults.none sampleStoreAfter (.ok sampleInput)).store.events.drop sampleStoreAfter.events.length,
        r.Owner = sampleStoreAfter.nextAlertID) ∧
      (∀ r ∈ (CreateAlert Faults.none sampleStoreAfter (.ok sampleInput)).store.metas.drop sampleStoreAfter.metas.length,
        r.Owner = sampleStoreAfter.nextAlertID) ∧
      (∀ r ∈ (CreateAlert Faults.none sampleStoreAfter (.ok sampleInput)).store.decisions.drop sampleStoreAfter.decisions.length,
        r.Owner = sampleStoreAfter.nextAlertID)) ∧
    ((⟨7⟩ : Machine) ∈ sampleStoreAfter.machines ∧ (⟨7⟩ : Machine).ID = sampleInput.MachineId)) :=
  ⟨by decide, rfl, rfl, rfl, rfl, by decide, by decide, by decide, by decide, by decide,
    createAlert_success_persists_all Faults.none sampleStoreAfter sampleInput ⟨7⟩
      sampleEvents sampleMetas sampleDecisions (by decide) rfl rfl rfl rfl (fun _ _ => rfl)⟩

/-- C3: on a well-formed request whose machine lookup returns an error,
CreateAlert answers internal-error and attempts no insert: the store is the
store before the call. -/
theorem createAlert_unresolved_machine_writes_nothing (fx : Faults) (s : Store)
    (input : CreateAlertInput) (e : String) (hv : violations input = [])
    (hm : QueryMachine fx s input.MachineId = .error e) :
    CreateAlert fx s (.ok input) =
      { store := s, lookups := [input.MachineId], saves := []
        emitted := [⟨StatusInternalServerError,
          .error "failed creating alert, machineId not exist"⟩] } :=
  run_unresolved fx s input e hv hm

theorem createAlert_unresolved_machine_writes_nothing_witness :
    violations sampleInput = [] ∧
    QueryMachine Faults.none Store.empty sampleInput.MachineId = .error "machine not found" ∧
    CreateAlert Faults.none Store.empty (.ok sampleInput) =
      { store := Store.empty, lookups := [sampleInput.MachineId], saves := []
        emitted := [⟨StatusInternalServerError,
          .error "failed creating alert, machineId not exist"⟩] } :=
  ⟨by decide, rfl,
    createAlert_unresolved_machine_writes_nothing Faults.none Store.empty sampleInput
      "machine not found" (by decide) rfl⟩

/-- C4: when a mandatory field of the decoded request is the zero value of its
type (the key is missing or zero-valued; for a time: the zero instant carrying
no location, `time.Time{}`; for the events slice: nil), CreateAlert answers
bad-request with the error of the binding as envelope, performs no machine
lookup and no insert, and leaves the store as it was. -/
theorem createAlert_missing_mandatory_rejected (fx : Faults) (s : Store)
    (input : CreateAlertInput)
    (h : input.MachineId = 0 ∨ input.Scenario = "" ∨ input.BucketId = "" ∨
      input.Message = "" ∨ input.EventCount = 0 ∨ input.StartedAt = ⟨0, none⟩ ∨
      input.StoppedAt = ⟨0, none⟩ ∨ input.Capacity = 0 ∨ input.LeakSpeed = 0 ∨
      input.Source.Scope = "" ∨ input.Source.Value = "" ∨ input.Events = none) :
    CreateAlert fx s (.ok input) =
      { store := s, lookups := [], saves := []
        emitted := [⟨StatusBadRequest,
          .error (BindError.validation (violations input)).Error⟩] } := by
  apply run_invalid
  intro hv
  simp only [violations, List.append_eq_nil, ite_eq_left_iff, Bool.not_eq_true,
    reduceCtorEq, imp_false, Bool.not_eq_false] at hv
  obtain ⟨⟨⟨⟨⟨⟨⟨⟨⟨⟨⟨⟨h1, h2⟩, h3⟩, h4⟩, h5⟩, h6⟩, h7⟩, h8⟩, h9⟩, h10⟩, h11⟩, h12⟩, _⟩ := hv
  rcases h with h | h | h | h | h | h | h | h | h | h | h | h
  · simp [requiredInt, h] at h1
  · simp [requiredString, h] at h2
  · simp [requiredString, h] at h3
  · simp [requiredString, h] at h4
  · simp [requiredInt, h] at h5
  · simp [requiredTime, h] at h6
  · simp [requiredTime, h] at h7
  · simp [requiredInt, h] at h8
  · simp [requiredInt, h] at h9
  · simp [requiredString, h] at h10
  · simp [requiredString, h] at h11
  · simp [requiredSlice, h] at h12

theorem createAlert_missing_mandatory_rejected_witness :
    (CreateAlert Faults.none sampleStore (.ok { sampleInput with Events := none })).emitted.map
        (fun r => r.status) = [StatusBadRequest] ∧
    (CreateAlert Faults.none sampleStore
        (.ok { sampleInput with StartedAt := ⟨0, some 0⟩ })).emitted.map
        (fun r => r.status) = [StatusOK] ∧
    CreateAlert Faults.none sampleStore (.ok { sampleInput with StartedAt := ⟨0, none⟩ }) =
      { store := sampleStore, lookups := [], saves := []
        emitted := [⟨StatusBadRequest,
          .error (BindError.validation
            (violations { sampleInput with StartedAt := ⟨0, none⟩ })).Error⟩] } :=
  ⟨by decide, by decide,
    createAlert_missing_mandatory_rejected Faults.none sampleStore
      { sampleInput with StartedAt := ⟨0, none⟩ }
      (Or.inr (Or.inr (Or.inr (Or.inr (Or.inr (Or.inl rfl))))))⟩

/-- C10: the inserts run one after the other in the order alert, events,
metas, decisions, each list in input order, and the handler leaves at the first
failure without undoing anything: when the insert preceded by `k` earlier
attempts is the first to fail, exactly `k + 1` inserts were attempted, the
store is the old store plus the `k` rows inserted before it, and the answer is
internal-error; when the alert insert itself fails (`k = 0`) the store is the
old store. -/
theorem createAlert_stops_at_first_failure (fx : Faults) (s : Store)
    (input : CreateAlertInput) (machine : Machine) (k : Nat)
    (hv : violations input = [])
    (hm : QueryMachine fx s input.MachineId = .ok machine)
    (hk : k < 1 + len input.Events + len input.Metas + len input.Decisions)
    (hlt : ∀ j, j < k → fx.insert j = false) (hf : fx.insert k = true) :
    CreateAlert fx s (.ok input) =
      { store :=
          if k = 0 then s else
          { machines := s.machines
            alerts := s.alerts ++ [(newAlert s.nextAlertID input machine)]
            events := s.events ++ ((elems input.Events).map (eventRow (newAlert s.nextAlertID input machine))).take (k - 1)
            metas := s.metas ++
              ((elems input.Metas).map (metaRow (newAlert s.nextAlertID input machine))).take (k - 1 - len input.Events)
            decisions := s.decisions ++
              ((elems input.Decisions).map (decisionRow (newAlert s.nextAlertID input machine))).take
                (k - 1 - len input.Events - len input.Metas)
            nextAlertID := s.nextAlertID + 1 }
        lookups := [input.MachineId]
        saves := (Table.alert :: (List.replicate (len input.Events) Table.event ++
          (List.replicate (len input.Metas) Table.meta ++
            List.replicate (len input.Decisions) Table.decision))).take (k + 1)
        emitted := [⟨StatusInternalServerError, .error "failed creating alert"⟩] } :=
  run_fault fx s input machine hv hm k hk hlt hf

theorem createAlert_stops_at_first_failure_witness :
    violations sampleInput = [] ∧
    QueryMachine (faultAt 3) sampleStore sampleInput.MachineId = .ok ⟨7⟩ ∧
    (faultAt 3).insert 3 = true ∧
    (CreateAlert (faultAt 3) sampleStore (.ok sampleInput) =
      { store :=
          if 3 = 0 then sampleStore else
          { machines := sampleStore.machines
            alerts := sampleStore.alerts ++ [(newAlert sampleStore.nextAlertID sampleInput (⟨7⟩ : Machine))]
            events := sampleStore.events ++ ((elems sampleInput.Events).map (eventRow (newAlert sampleStore.nextAlertID sampleInput (⟨7⟩ : Machine)))).take (3 - 1)
            metas := sampleStore.metas ++
              ((elems sampleInput.Metas).map (metaRow (newAlert sampleStore.nextAlertID sampleInput (⟨7⟩ : Machine)))).take (3 - 1 - len sampleInput.Events)
            decisions := sampleStore.decisions ++
              ((elems sampleInput.Decisions).map (decisionRow (newAlert sampleStore.nextAlertID sampleInput (⟨7⟩ : Machine)))).take
                (3 - 1 - len sampleInput.Events - len sampleInput.Metas)
            nextAlertID := sampleStore.nextAlertID + 1 }
        lookups := [sampleInput.MachineId]
        saves := (Table.alert :: (List.replicate (len sampleInput.Events) Table.event ++
          (List.replicate (len sampleInput.Metas) Table.meta ++
            List.replicate (len sampleInput.Decisions) Table.decision))).take (3 + 1)
        emitted := [⟨StatusInternalServerError, .error "failed creating alert"⟩] }) :=
  ⟨by decide, rfl, by decide,
    createAlert_stops_at_first_failure (faultAt 3) sampleStore sampleInput ⟨7⟩ 3
      (by decide) rfl (by decide) (by decide) (by decide)⟩

/-- C2 (as amended): when the first insert to fail is a child insert (`k ≥ 1`),
CreateAlert answers internal-error and nothing is undone: the store keeps the
new alert and the children inserted before the failing one, next to the rows
present before. -/
theorem createAlert_child_failure_no_rollback (fx : Faults) (s : Store)
    (input : CreateAlertInput) (machine : Machine) (k : Nat)
    (hv : violations input = [])
    (hm : QueryMachine fx s input.MachineId = .ok machine)
    (hk1 : 1 ≤ k)
    (hk : k < 1 + len input.Events + len input.Metas + len input.Decisions)
    (hlt : ∀ j, j < k → fx.insert j = false) (hf : fx.insert k = true) :
    (CreateAlert fx s (.ok input)).emitted
        = [⟨StatusInternalServerError, .error "failed creating alert"⟩] ∧
      (CreateAlert fx s (.ok input)).store.machines = s.machines ∧
      (CreateAlert fx s (.ok input)).store.alerts = s.alerts ++ [(newAlert s.nextAlertID input machine)] ∧
      (CreateAlert fx s (.ok input)).store.events
        = s.events ++ ((elems input.Events).map (eventRow (newAlert s.nextAlertID input machine))).take (k - 1) ∧
      (CreateAlert fx s (.ok input)).store.metas
        = s.metas ++ ((elems input.Metas).map (metaRow (newAlert s.nextAlertID input machine))).take (k - 1 - len input.Events) ∧
      (CreateAlert fx s (.ok input)).store.decisions
        = s.decisions ++ ((elems input.Decisions).map (decisionRow (newAlert s.nextAlertID input machine))).take
            (k - 1 - len input.Events - len input.Metas) := by
  have hk0 : ¬ k = 0 := by omega
  rw [run_fault fx s input machine hv hm k hk hlt hf]
  simp [hk0]

theorem createAlert_child_failure_no_rollback_witness :
    violations sampleInput = [] ∧
    QueryMachine (faultAt 5) sampleStore sampleInput.MachineId = .ok ⟨7⟩ ∧
    (faultAt 5).insert 5 = true ∧
    ((CreateAlert (faultAt 5) sampleStore (.ok sampleInput)).emitted
        = [⟨StatusInternalServerError, .error "failed creating alert"⟩] ∧
      (CreateAlert (faultAt 5) sampleStore (.ok sampleInput)).store.machines = sampleStore.machines ∧
      (CreateAlert (faultAt 5) sampleStore (.ok sampleInput)).store.alerts = sampleStore.alerts ++ [(newAlert sampleStore.nextAlertID sampleInput (⟨7⟩ : Machine))] ∧
      (CreateAlert (faultAt 5) sampleStore (.ok sampleInput)).store.events
        = sampleStore.events ++ ((elems sampleInput.Events).map (eventRow (newAlert sampleStore.nextAlertID sampleInput (⟨7⟩ : Machine)))).take (5 - 1) ∧
      (CreateAlert (faultAt 5) sampleStore (.ok sampleInput)).store.metas
        = sampleStore.metas ++ ((elems sampleInput.Metas).map (metaRow (newAlert sampleStore.nextAlertID sampleInput (⟨7⟩ : Machine)))).take (5 - 1 - len sampleInput.Events) ∧
      (CreateAlert (faultAt 5) sampleStore (.ok sampleInput)).store.decisions
        = sampleStore.decisions ++ ((elems sampleInput.Decisions).map (decisionRow (newAlert sampleStore.nextAlertID sampleInput (⟨7⟩ : Machine)))).take
            (5 - 1 - len sampleInput.Events - len sampleInput.Metas)) :=
  ⟨by decide, rfl, by decide,
    createAlert_child_failure_no_rollback (faultAt 5) sampleStore sampleInput ⟨7⟩ 5
      (by decide) rfl (by decide) (by decide) (by decide) (by decide)⟩

/-- C2 (counterexample): with a storage fault on the second decision of the
sample request, CreateAlert fails, yet the store, empty of alerts before, now
holds the new alert, both events, the meta and the first decision. -/
theorem createAlert_child_failure_leaves_rows :
    (CreateAlert (faultAt 5) sampleStore (.ok sampleInput)).emitted
        = [⟨StatusInternalServerError, .error "failed creating alert"⟩] ∧
      sampleStore.alerts.length = 0 ∧
      (CreateAlert (faultAt 5) sampleStore (.ok sampleInput)).store.alerts.length = 1 ∧
      (CreateAlert (faultAt 5) sampleStore (.ok sampleInput)).store.events.length = 2 ∧
      (CreateAlert (faultAt 5) sampleStore (.ok sampleInput)).store.metas.length = 1 ∧
      (CreateAlert (faultAt 5) sampleStore (.ok sampleInput)).store.decisions.length = 1 ∧
      decide ((CreateAlert (faultAt 5) sampleStore (.ok sampleInput)).store = sampleStore)
        = false := by
  decide

/-- C5: when the query succeeds, FindAlerts answers OK with exactly the alerts
of the store, in store order, whose scenario contains the scenario filter and
whose source scope contains the sourceScope filter and whose source value
contains the sourceValue filter; each comes with exactly the events, metas and
decisions of the store that reference it; with the three filters empty every
alert of the store is returned. -/
theorem findAlerts_returns_matching (fx : Faults) (s : Store)
    (scenario sourceScope sourceValue : String) (hq : fx.query = false) :
    ∃ recs : List LoadedAlert,
      FindAlerts fx s scenario sourceScope sourceValue = [⟨StatusOK, .dataList recs⟩] ∧
      recs.map (fun r => r.alert) = s.alerts.filter (fun a =>
        decide (scenario.data <:+: a.Scenario.data ∧ sourceScope.data <:+: a.SourceScope.data ∧
          sourceValue.data <:+: a.SourceValue.data)) ∧
      (∀ r ∈ recs,
        (∀ e, e ∈ r.events ↔ e ∈ s.events ∧ e.Owner = r.alert.ID) ∧
        (∀ m, m ∈ r.metas ↔ m ∈ s.metas ∧ m.Owner = r.alert.ID) ∧
        (∀ d, d ∈ r.decisions ↔ d ∈ s.decisions ∧ d.Owner = r.alert.ID)) ∧
      ∃ every : List LoadedAlert,
        FindAlerts fx s "" "" "" = [⟨StatusOK, .dataList every⟩] ∧
        every.map (fun r => r.alert) = s.alerts := by
  refine ⟨_, findAlerts_ok fx s scenario sourceScope sourceValue hq, ?_, ?_,
    _, findAlerts_ok fx s "" "" "" hq, ?_⟩
  · rw [map_alert_load]
    apply List.filter_congr
    intro a _
    rw [Bool.eq_iff_iff, matchesFilter_iff]
    simp
  · intro r hr
    obtain ⟨a, _, rfl⟩ := List.mem_map.mp hr
    simp [load, List.mem_filter]
  · rw [map_alert_load, filter_matches_empty]

theorem findAlerts_returns_matching_witness :
    Faults.none.query = false ∧
    (∃ recs : List LoadedAlert,
      FindAlerts Faults.none sampleStoreAfter "ssh" "ip" "" = [⟨StatusOK, .dataList recs⟩] ∧
      recs.map (fun r => r.alert) = sampleStoreAfter.alerts.filter (fun a =>
        decide ("ssh".data <:+: a.Scenario.data ∧ "ip".data <:+: a.SourceScope.data ∧
          "".data <:+: a.SourceValue.data)) ∧
      (∀ r ∈ recs,
        (∀ e, e ∈ r.events ↔ e ∈ sampleStoreAfter.events ∧ e.Owner = r.alert.ID) ∧
        (∀ m, m ∈ r.metas ↔ m ∈ sampleStoreAfter.metas ∧ m.Owner = r.alert.ID) ∧
        (∀ d, d ∈ r.decisions ↔ d ∈ sampleStoreAfter.decisions ∧ d.Owner = r.alert.ID)) ∧
      ∃ every : List LoadedAlert,
        FindAlerts Faults.none sampleStoreAfter "" "" "" = [⟨StatusOK, .dataList every⟩] ∧
        every.map (fun r => r.alert) = sampleStoreAfter.alerts) :=
  ⟨rfl, findAlerts_returns_matching Faults.none sampleStoreAfter "ssh" "ip" "" rfl⟩

/-- C6: in a referentially intact store, after a successful CreateAlert of a
request with events `es`, metas `ms` and decisions `ds`, a FindAlerts with no
filter answers OK with the alerts the store held before followed by one record
for the new alert; the events, metas and decisions of that record are `es`,
`ms` and `ds`, field by field and in number; no other record carries the new
identifier. -/
theorem create_then_find_roundtrip (fx : Faults) (s : Store) (input : CreateAlertInput)
    (machine : Machine) (es : List Event) (ms : List Meta) (ds : List Decision)
    (hwf : s.WF) (hv : violations input = [])
    (hes : input.Events = some es) (hms : input.Metas.getD [] = ms)
    (hds : input.Decisions = some ds)
    (hm : QueryMachine fx s input.MachineId = .ok machine)
    (hf : ∀ k, k < 1 + es.length + ms.length + ds.length → fx.insert k = false)
    (hq : fx.query = false) :
    ∃ (older : List LoadedAlert) (rec : LoadedAlert),
      FindAlerts fx (CreateAlert fx s (.ok input)).store "" "" ""
        = [⟨StatusOK, .dataList (older ++ [rec])⟩] ∧
      rec.alert = ({
                ID := s.nextAlertID,
                Scenario := input.Scenario,
                BucketId := input.BucketId,
                Message := input.Message,
                EventsCount := input.EventCount,
                StartedAt := input.StartedAt,
                StoppedAt := input.StoppedAt,
                SourceScope := input.Source.Scope,
                SourceValue := input.Source.Value,
                SourceIp := input.Source.Ip,
                SourceRange := input.Source.Range,
                SourceAsNumber := input.Source.AsNumber,
                SourceAsName := input.Source.AsName,
                SourceCountry := input.Source.Country,
                SourceLatitude := input.Source.Latitude,
                SourceLongitude := input.Source.Longitude,
                Capacity := input.Capacity,
                LeakSpeed := input.LeakSpeed,
                Reprocess := input.Reprocess,
                Owner := machine.ID } : Alert) ∧
      rec.events.map (fun r => (⟨r.Time, r.Serialized⟩ : Event)) = es ∧
      rec.metas.map (fun r => (⟨r.Key, r.Value⟩ : Meta)) = ms ∧
      rec.decisions.map
        (fun r => (⟨r.Until, r.Scenario, r.DecisionType, r.SourceIpStart, r.SourceIpEnd,
          r.SourceValue, r.SourceScope⟩ : Decision)) = ds ∧
      older.map (fun r => r.alert) = s.alerts ∧
      ∀ r ∈ older, r.alert.ID ≠ rec.alert.ID := by
  have e1 : elems input.Events = es := by rw [hes]; rfl
  have e2 : elems input.Metas = ms := by rw [elems_getD, hms]
  have e3 : elems input.Decisions = ds := by rw [hds]; rfl
  have hf0 : ∀ k, k < 1 + len input.Events + len input.Metas + len input.Decisions →
      fx.insert k = false := by simpa only [len, e1, e2, e3] using hf
  refine ⟨s.alerts.map (load (CreateAlert fx s (.ok input)).store),
    load (CreateAlert fx s (.ok input)).store (newAlert s.nextAlertID input machine),
    ?_, rfl, ?_, ?_, ?_, ?_, ?_⟩
  all_goals rw [run_success fx s input machine hv hm hf0]
  · rw [findAlerts_ok _ _ _ _ _ hq, filter_matches_empty, List.map_append]
    rfl
  · show (List.filter _ (s.events ++ _)).map _ = _
    rw [List.filter_append, filter_owner_lt (fun r : EventRow => r.Owner) s.events
        (newAlert s.nextAlertID input machine).ID hwf.events_lt,
      filter_owner_eq (fun r : EventRow => r.Owner), List.nil_append, events_back, e1]
    intro r hr
    obtain ⟨x, _, rfl⟩ := List.mem_map.mp hr
    rfl
  · show (List.filter _ (s.metas ++ _)).map _ = _
    rw [List.filter_append, filter_owner_lt (fun r : MetaRow => r.Owner) s.metas
        (newAlert s.nextAlertID input machine).ID hwf.metas_lt,
      filter_owner_eq (fun r : MetaRow => r.Owner), List.nil_append, metas_back, e2]
    intro r hr
    obtain ⟨x, _, rfl⟩ := List.mem_map.mp hr
    rfl
  · show (List.filter _ (s.decisions ++ _)).map _ = _
    rw [List.filter_append,
      filter_owner_lt (fun r : DecisionRow => r.Owner) s.decisions
        (newAlert s.nextAlertID input machine).ID hwf.decisions_lt,
      filter_owner_eq (fun r : DecisionRow => r.Owner), List.nil_append, decisions_back, e3]
    intro r hr
    obtain ⟨x, _, rfl⟩ := List.mem_map.mp hr
    rfl
  · exact map_alert_load _ _
  · intro r hr
    obtain ⟨a, ha, rfl⟩ := List.mem_map.mp hr
    have := hwf.alerts_lt a ha
    show a.ID ≠ s.nextAlertID
    omega

theorem create_then_find_roundtrip_witness :
    sampleStoreAfter.WF ∧ violations sampleInput = [] ∧
    sampleInput.Events = some sampleEvents ∧
    sampleInput.Metas.getD [] = sampleMetas ∧
    sampleInput.Decisions = some sampleDecisions ∧
    QueryMachine Faults.none sampleStoreAfter sampleInput.MachineId = .ok ⟨7⟩ ∧
    Faults.none.query = false ∧
    sampleStoreAfter.alerts.length = 1 ∧ sampleStoreAfter.events.length = 2 ∧
    (FindAlerts Faults.none
        (CreateAlert Faults.none sampleStoreAfter (.ok sampleInput)).store "" "" "").map
      (fun r => match r.body with
        | .dataList recs => recs.map (fun x => (x.alert.ID, x.events, x.metas, x.decisions))
        | _ => [])
      = [[(1, [⟨⟨11, none⟩, "e1", 1⟩, ⟨⟨12, none⟩, "e2", 1⟩], [⟨"k", "v", 1⟩],
            [⟨⟨99, none⟩, "ssh-bf", "ban", 1, 2, "1.2.3.4", "ip", 1⟩,
              ⟨⟨98, none⟩, "ssh-bf", "captcha", 3, 4, "1.2.3.0/24", "range", 1⟩]),
          (2, [⟨⟨11, none⟩, "e1", 2⟩, ⟨⟨12, none⟩, "e2", 2⟩], [⟨"k", "v", 2⟩],
            [⟨⟨99, none⟩, "ssh-bf", "ban", 1, 2, "1.2.3.4", "ip", 2⟩,
              ⟨⟨98, none⟩, "ssh-bf", "captcha", 3, 4, "1.2.3.0/24", "range", 2⟩])]] ∧
    (∃ (older : List LoadedAlert) (rec : LoadedAlert),
      FindAlerts Faults.none (CreateAlert Faults.none sampleStoreAfter (.ok sampleInput)).store "" "" ""
        = [⟨StatusOK, .dataList (older ++ [rec])⟩] ∧
      rec.alert = ({
                ID := sampleStoreAfter.nextAlertID,
                Scenario := sampleInput.Scenario,
                BucketId := sampleInput.BucketId,
                Message := sampleInput.Message,
                EventsCount := sampleInput.EventCount,
                StartedAt := sampleInput.StartedAt,
                StoppedAt := sampleInput.StoppedAt,
                SourceScope := sampleInput.Source.Scope,
                SourceValue := sampleInput.Source.Value,
                SourceIp := sampleInput.Source.Ip,
                SourceRange := sampleInput.Source.Range,
                SourceAsNumber := sampleInput.Source.AsNumber,
                SourceAsName := sampleInput.Source.AsName,
                SourceCountry := sampleInput.Source.Country,
                SourceLatitude := sampleInput.Source.Latitude,
                SourceLongitude := sampleInput.Source.Longitude,
                Capacity := sampleInput.Capacity,
                LeakSpeed := sampleInput.LeakSpeed,
                Reprocess := sampleInput.Reprocess,
                Owner := (⟨7⟩ : Machine).ID } : Alert) ∧
      rec.events.map (fun r => (⟨r.Time, r.Serialized⟩ : Event)) = sampleEvents ∧
      rec.metas.map (fun r => (⟨r.Key, r.Value⟩ : Meta)) = sampleMetas ∧
      rec.decisions.map
        (fun r => (⟨r.Until, r.Scenario, r.DecisionType, r.SourceIpStart, r.SourceIpEnd,
          r.SourceValue, r.SourceScope⟩ : Decision)) = sampleDecisions ∧
      older.map (fun r => r.alert) = sampleStoreAfter.alerts ∧
      ∀ r ∈ older, r.alert.ID ≠ rec.alert.ID) :=
  ⟨createAlert_WF Faults.none sampleStore (.ok sampleInput) sampleStore_WF,
    by decide, rfl, rfl, rfl, rfl, rfl, by decide, by decide, rfl,
    create_then_find_roundtrip Faults.none sampleStoreAfter sampleInput ⟨7⟩
      sampleEvents sampleMetas sampleDecisions
      (createAlert_WF Faults.none sampleStore (.ok sampleInput) sampleStore_WF)
      (by decide) rfl rfl rfl rfl (fun _ _ => rfl) rfl⟩

/-- C8: CreateAlert emits exactly one response, fixed by the outcome:
bad-request with an error envelope when binding fails; internal-error with an
error envelope when the machine lookup fails or when any of the attempted
inserts (alert, events, metas, decisions) fails; OK with the created alert
otherwise. FindAlerts emits exactly one response: internal-error with an error
envelope when the query fails, OK with a data list otherwise. -/
theorem handlers_emit_one_response (fx : Faults) (s : Store)
    (body : Except String CreateAlertInput) :
    (CreateAlert fx s body).emitted =
      [ match ShouldBindJSON body with
        | .error err => ⟨StatusBadRequest, .error err.Error⟩
        | .ok input =>
          match QueryMachine fx s input.MachineId with
          | .error _ =>
            ⟨StatusInternalServerError, .error "failed creating alert, machineId not exist"⟩
          | .ok machine =>
            if (List.range (1 + len input.Events + len input.Metas + len input.Decisions)).any
                fx.insert
            then ⟨StatusInternalServerError, .error "failed creating alert"⟩
            else ⟨StatusOK, .data (newAlert s.nextAlertID input machine)⟩ ] ∧
    ∀ scenario sourceScope sourceValue : String,
      (fx.query = true ∧ FindAlerts fx s scenario sourceScope sourceValue
          = [⟨StatusInternalServerError, .error "failed querying alert"⟩]) ∨
      (fx.query = false ∧ ∃ alerts, FindAlerts fx s scenario sourceScope sourceValue
          = [⟨StatusOK, .dataList alerts⟩]) := by
  constructor
  · cases body with
    | error msg => rfl
    | ok input =>
      by_cases hv : violations input = []
      · cases hm : QueryMachine fx s input.MachineId with
        | error e => simp only [run_unresolved fx s input e hv hm, bind_ok input hv, hm]
        | ok machine =>
          rcases first_fault fx.insert
              (1 + len input.Events + len input.Metas + len input.Decisions)
            with h | ⟨k, hk, hf, hlt⟩
          · simp only [run_success fx s input machine hv hm h, bind_ok input hv, hm,
              any_insert_false _ _ h, Bool.false_eq_true, ↓reduceIte]
          · simp only [run_fault fx s input machine hv hm k hk hlt hf, bind_ok input hv, hm,
              any_insert_true _ _ k hk hf, ↓reduceIte]
      · simp only [run_invalid fx s input hv, bind_error input hv]
  · intro scenario sourceScope sourceValue
    cases hq : fx.query with
    | true => exact Or.inl ⟨rfl, findAlerts_fail fx s _ _ _ hq⟩
    | false => exact Or.inr ⟨rfl, _, findAlerts_ok fx s _ _ _ hq⟩

/-- C7 (as amended): metas is optional, decisions must be present but may be
empty. For a request whose other mandatory fields are non-zero, with events
`es`, metas `ms` (empty when the key is absent) and a present decisions list
`ds`: validation passes whatever metas is (absent, empty or not) and for every
present decisions list (the empty one included); the same request with
decisions absent is answered bad-request with the validator error for the field
`Decisions`, without touching storage; with a resolved machine and no failing
insert the request answers OK and inserts the alert, its events, one row per
meta and one per decision, hence no meta when metas is empty or absent and no
decision when decisions is empty. -/
theorem createAlert_metas_optional_decisions_present (fx : Faults) (s : Store)
    (input : CreateAlertInput) (machine : Machine)
    (es : List Event) (ms : List Meta) (ds : List Decision)
    (h1 : input.MachineId ≠ 0) (h2 : input.Scenario ≠ "") (h3 : input.BucketId ≠ "")
    (h4 : input.Message ≠ "") (h5 : input.EventCount ≠ 0) (h6 : input.StartedAt ≠ ⟨0, none⟩)
    (h7 : input.StoppedAt ≠ ⟨0, none⟩) (h8 : input.Capacity ≠ 0) (h9 : input.LeakSpeed ≠ 0)
    (h10 : input.Source.Scope ≠ "") (h11 : input.Source.Value ≠ "")
    (hes : input.Events = some es) (hms : input.Metas.getD [] = ms)
    (hds : input.Decisions = some ds)
    (hm : QueryMachine fx s input.MachineId = .ok machine)
    (hf : ∀ k, k < 1 + es.length + ms.length + ds.length → fx.insert k = false) :
    (∀ ms, violations { input with Metas := ms } = []) ∧
    (∀ ds, violations { input with Decisions := some ds } = []) ∧
    CreateAlert fx s (.ok { input with Decisions := none }) =
      { store := s, lookups := [], saves := []
        emitted := [⟨StatusBadRequest, .error (BindError.validation ["Decisions"]).Error⟩] } ∧
    (CreateAlert fx s (.ok input)).emitted
      = [⟨StatusOK, .data ({
                ID := s.nextAlertID,
                Scenario := input.Scenario,
                BucketId := input.BucketId,
                Message := input.Message,
                EventsCount := input.EventCount,
                StartedAt := input.StartedAt,
                StoppedAt := input.StoppedAt,
                SourceScope := input.Source.Scope,
                SourceValue := input.Source.Value,
                SourceIp := input.Source.Ip,
                SourceRange := input.Source.Range,
                SourceAsNumber := input.Source.AsNumber,
                SourceAsName := input.Source.AsName,
                SourceCountry := input.Source.Country,
                SourceLatitude := input.Source.Latitude,
                SourceLongitude := input.Source.Longitude,
                Capacity := input.Capacity,
                LeakSpeed := input.LeakSpeed,
                Reprocess := input.Reprocess,
                Owner := machine.ID } : Alert)⟩] ∧
    (CreateAlert fx s (.ok input)).store.alerts
      = s.alerts ++ [({
                ID := s.nextAlertID,
                Scenario := input.Scenario,
                BucketId := input.BucketId,
                Message := input.Message,
                EventsCount := input.EventCount,
                StartedAt := input.StartedAt,
                StoppedAt := input.StoppedAt,
                SourceScope := input.Source.Scope,
                SourceValue := input.Source.Value,
                SourceIp := input.Source.Ip,
                SourceRange := input.Source.Range,
                SourceAsNumber := input.Source.AsNumber,
                SourceAsName := input.Source.AsName,
                SourceCountry := input.Source.Country,
                SourceLatitude := input.Source.Latitude,
                SourceLongitude := input.Source.Longitude,
                Capacity := input.Capacity,
                LeakSpeed := input.LeakSpeed,
                Reprocess := input.Reprocess,
                Owner := machine.ID } : Alert)] ∧
    (CreateAlert fx s (.ok input)).store.events
      = s.events ++ es.map (fun e => (⟨e.Time, e.Serialized, s.nextAlertID⟩ : EventRow)) ∧
    (CreateAlert fx s (.ok input)).store.metas
      = s.metas ++ ms.map (fun m => (⟨m.Key, m.Value, s.nextAlertID⟩ : MetaRow)) ∧
    (CreateAlert fx s (.ok input)).store.decisions
      = s.decisions ++ ds.map (fun d => (⟨d.Until, d.Scenario, d.DecisionType, d.SourceIpStart,
              d.SourceIpEnd, d.SourceValue, d.SourceScope, s.nextAlertID⟩ : DecisionRow)) ∧
    (ms = [] → (CreateAlert fx s (.ok input)).store.metas = s.metas) ∧
    (ds = [] → (CreateAlert fx s (.ok input)).store.decisions = s.decisions) := by
  have h12 : input.Events ≠ none := by rw [hes]; simp
  have hreq : requiredSlice input.Decisions = true := by rw [hds]; rfl
  have hv : violations input = [] := by
    rw [violations_of_mandatory input h1 h2 h3 h4 h5 h6 h7 h8 h9 h10 h11 h12, hreq]
    rfl
  have hnone : violations { input with Decisions := none } = ["Decisions"] :=
    violations_of_mandatory { input with Decisions := none }
      h1 h2 h3 h4 h5 h6 h7 h8 h9 h10 h11 h12
  have e1 : elems input.Events = es := by rw [hes]; rfl
  have e2 : elems input.Metas = ms := by rw [elems_getD, hms]
  have e3 : elems input.Decisions = ds := by rw [hds]; rfl
  have hrun : CreateAlert fx s (.ok input) =
      { store :=
          { machines := s.machines
            alerts := s.alerts ++ [({
                ID := s.nextAlertID,
                Scenario := input.Scenario,
                BucketId := input.BucketId,
                Message := input.Message,
                EventsCount := input.EventCount,
                StartedAt := input.StartedAt,
                StoppedAt := input.StoppedAt,
                SourceScope := input.Source.Scope,
                SourceValue := input.Source.Value,
                SourceIp := input.Source.Ip,
                SourceRange := input.Source.Range,
                SourceAsNumber := input.Source.AsNumber,
                SourceAsName := input.Source.AsName,
                SourceCountry := input.Source.Country,
                SourceLatitude := input.Source.Latitude,
                SourceLongitude := input.Source.Longitude,
                Capacity := input.Capacity,
                LeakSpeed := input.LeakSpeed,
                Reprocess := input.Reprocess,
                Owner := machine.ID } : Alert)]
            events := s.events ++ es.map (fun e => (⟨e.Time, e.Serialized, s.nextAlertID⟩ : EventRow))
            metas := s.metas ++ ms.map (fun m => (⟨m.Key, m.Value, s.nextAlertID⟩ : MetaRow))
            decisions := s.decisions ++ ds.map (fun d => (⟨d.Until, d.Scenario, d.DecisionType, d.SourceIpStart,
              d.SourceIpEnd, d.SourceValue, d.SourceScope, s.nextAlertID⟩ : DecisionRow))
            nextAlertID := s.nextAlertID + 1 }
        lookups := [input.MachineId]
        saves := Table.alert :: (List.replicate es.length Table.event ++
          (List.replicate ms.length Table.meta ++ List.replicate ds.length Table.decision))
        emitted := [⟨StatusOK, .data ({
                ID := s.nextAlertID,
                Scenario := input.Scenario,
                BucketId := input.BucketId,
                Message := input.Message,
                EventsCount := input.EventCount,
                StartedAt := input.StartedAt,
                StoppedAt := input.StoppedAt,
                SourceScope := input.Source.Scope,
                SourceValue := input.Source.Value,
                SourceIp := input.Source.Ip,
                SourceRange := input.Source.Range,
                SourceAsNumber := input.Source.AsNumber,
                SourceAsName := input.Source.AsName,
                SourceCountry := input.Source.Country,
                SourceLatitude := input.Source.Latitude,
                SourceLongitude := input.Source.Longitude,
                Capacity := input.Capacity,
                LeakSpeed := input.LeakSpeed,
                Reprocess := input.Reprocess,
                Owner := machine.ID } : Alert)⟩] } := by
    rw [run_success fx s input machine hv hm (by simpa only [len, e1, e2, e3] using hf)]
    simp only [len, e1, e2, e3]
    rfl
  refine ⟨?_, ?_, ?_, ?_, ?_, ?_, ?_, ?_, ?_, ?_⟩
  · intro ms0
    rw [violations_of_mandatory { input with Metas := ms0 }
      h1 h2 h3 h4 h5 h6 h7 h8 h9 h10 h11 h12]
    show (if requiredSlice input.Decisions = true then [] else ["Decisions"]) = []
    rw [hreq]
    rfl
  · intro ds0
    exact violations_of_mandatory { input with Decisions := some ds0 }
      h1 h2 h3 h4 h5 h6 h7 h8 h9 h10 h11 h12
  · rw [run_invalid fx s _ (by rw [hnone]; simp), hnone]
  · rw [hrun]
  · rw [hrun]
  · rw [hrun]
  · rw [hrun]
  · rw [hrun]
  · intro h0
    rw [hrun, h0]
    simp
  · intro h0
    rw [hrun, h0]
    simp

theorem createAlert_metas_optional_decisions_present_witness :
    bareInput.Events = some sampleEvents ∧ bareInput.Metas = none ∧
    bareInput.Decisions = some [] ∧
    (CreateAlert Faults.none sampleStore (.ok bareInput)).store.events
      = [⟨⟨11, none⟩, "e1", 1⟩, ⟨⟨12, none⟩, "e2", 1⟩] ∧
    (CreateAlert Faults.none sampleStore (.ok bareInput)).store.metas = [] ∧
    (CreateAlert Faults.none sampleStore (.ok bareInput)).store.decisions = [] ∧
    ((∀ ms, violations { bareInput with Metas := ms } = []) ∧
    (∀ ds, violations { bareInput with Decisions := some ds } = []) ∧
    CreateAlert Faults.none sampleStore (.ok { bareInput with Decisions := none }) =
      { store := sampleStore, lookups := [], saves := []
        emitted := [⟨StatusBadRequest, .error (BindError.validation ["Decisions"]).Error⟩] } ∧
    (CreateAlert Faults.none sampleStore (.ok bareInput)).emitted
      = [⟨StatusOK, .data ({
                ID := sampleStore.nextAlertID,
                Scenario := bareInput.Scenario,
                BucketId := bareInput.BucketId,
                Message := bareInput.Message,
                EventsCount := bareInput.EventCount,
                StartedAt := bareInput.StartedAt,
                StoppedAt := bareInput.StoppedAt,
                SourceScope := bareInput.Source.Scope,
                SourceValue := bareInput.Source.Value,
                SourceIp := bareInput.Source.Ip,
                SourceRange := bareInput.Source.Range,
                SourceAsNumber := bareInput.Source.AsNumber,
                SourceAsName := bareInput.Source.AsName,
                SourceCountry := bareInput.Source.Country,
                SourceLatitude := bareInput.Source.Latitude,
                SourceLongitude := bareInput.Source.Longitude,
                Capacity := bareInput.Capacity,
                LeakSpeed := bareInput.LeakSpeed,
                Reprocess := bareInput.Reprocess,
                Owner := (⟨7⟩ : Machine).ID } : Alert)⟩] ∧
    (CreateAlert Faults.none sampleStore (.ok bareInput)).store.alerts
      = sampleStore.alerts ++ [({
                ID := sampleStore.nextAlertID,
                Scenario := bareInput.Scenario,
                BucketId := bareInput.BucketId,
                Message := bareInput.Message,
                EventsCount := bareInput.EventCount,
                StartedAt := bareInput.StartedAt,
                StoppedAt := bareInput.StoppedAt,
                SourceScope := bareInput.Source.Scope,
                SourceValue := bareInput.Source.Value,
                SourceIp := bareInput.Source.Ip,
                SourceRange := bareInput.Source.Range,
                SourceAsNumber := bareInput.Source.AsNumber,
                SourceAsName := bareInput.Source.AsName,
                SourceCountry := bareInput.Source.Country,
                SourceLatitude := bareInput.Source.Latitude,
                SourceLongitude := bareInput.Source.Longitude,
                Capacity := bareInput.Capacity,
                LeakSpeed := bareInput.LeakSpeed,
                Reprocess := bareInput.Reprocess,
                Owner := (⟨7⟩ : Machine).ID } : Alert)] ∧
    (CreateAlert Faults.none sampleStore (.ok bareInput)).store.events
      = sampleStore.events ++ sampleEvents.map (fun e => (⟨e.Time, e.Serialized, sampleStore.nextAlertID⟩ : EventRow)) ∧
    (CreateAlert Faults.none sampleStore (.ok bareInput)).store.metas
      = sampleStore.metas ++ ([] : List Meta).map (fun m => (⟨m.Key, m.Value, sampleStore.nextAlertID⟩ : MetaRow)) ∧
    (CreateAlert Faults.none sampleStore (.ok bareInput)).store.decisions
      = sampleStore.decisions ++ ([] : List Decision).map (fun d => (⟨d.Until, d.Scenario, d.DecisionType, d.SourceIpStart,
              d.SourceIpEnd, d.SourceValue, d.SourceScope, sampleStore.nextAlertID⟩ : DecisionRow)) ∧
    (([] : List Meta) = [] → (CreateAlert Faults.none sampleStore (.ok bareInput)).store.metas = sampleStore.metas) ∧
    (([] : List Decision) = [] → (CreateAlert Faults.none sampleStore (.ok bareInput)).store.decisions = sampleStore.decisions)) :=
  ⟨rfl, rfl, rfl, by decide, by decide, by decide,
    createAlert_metas_optional_decisions_present Faults.none sampleStore bareInput ⟨7⟩
      sampleEvents [] []
      (by decide) (by decide) (by decide) (by decide) (by decide) (by decide) (by decide)
      (by decide) (by decide) (by decide) (by decide) rfl rfl rfl rfl (fun _ _ => rfl)⟩

/-- C7 (counterexample): the sample request passes validation, and the same
request with the decisions key absent is answered bad-request with the
validator error for the field `Decisions`; nothing is looked up or written. -/
theorem createAlert_absent_decisions_rejected :
    violations sampleInput = [] ∧
    noDecisionsInput = { sampleInput with Decisions := none } ∧
    (CreateAlert Faults.none sampleStore (.ok sampleInput)).emitted.map (fun r => r.status)
      = [StatusOK] ∧
    (CreateAlert Faults.none sampleStore (.ok noDecisionsInput)).emitted.map (fun r => r.status)
      = [StatusBadRequest] ∧
    CreateAlert Faults.none sampleStore (.ok noDecisionsInput) =
      { store := sampleStore, lookups := [], saves := []
        emitted := [⟨StatusBadRequest, .error (BindError.validation ["Decisions"]).Error⟩] } := by
  decide

/-- C9 (as amended): the fields of an event carry no binding constraint. A
request that passes validation passes it with any list of events in place of
its own, whatever their timestamps and payloads; with a resolved machine and no
failing insert it answers OK, and each of its events, zero-valued fields
included, is stored as submitted under the new alert. -/
theorem createAlert_event_fields_unchecked (fx : Faults) (s : Store)
    (input : CreateAlertInput) (machine : Machine) (e : Event)
    (hv : violations input = []) (he : e ∈ elems input.Events)
    (hm : QueryMachine fx s input.MachineId = .ok machine)
    (hf : ∀ k, k < 1 + len input.Events + len input.Metas + len input.Decisions →
      fx.insert k = false) :
    (∀ es, violations { input with Events := some es } = []) ∧
    (CreateAlert fx s (.ok input)).emitted
      = [⟨StatusOK, .data (newAlert s.nextAlertID input machine)⟩] ∧
    (⟨e.Time, e.Serialized, s.nextAlertID⟩ : EventRow)
      ∈ (CreateAlert fx s (.ok input)).store.events := by
  refine ⟨?_, ?_, ?_⟩
  · intro es
    rw [violations_nil_iff] at hv ⊢
    obtain ⟨a1, a2, a3, a4, a5, a6, a7, a8, a9, a10, a11, _, a13⟩ := hv
    exact ⟨a1, a2, a3, a4, a5, a6, a7, a8, a9, a10, a11, rfl, a13⟩
  · rw [run_success fx s input machine hv hm hf]
  · rw [run_success fx s input machine hv hm hf]
    apply List.mem_append_right
    exact List.mem_map.mpr ⟨e, he, rfl⟩

theorem createAlert_event_fields_unchecked_witness :
    violations zeroEventInput = [] ∧
    (⟨⟨0, none⟩, ""⟩ : Event) ∈ elems zeroEventInput.Events ∧
    ((∀ es, violations { zeroEventInput with Events := some es } = []) ∧
    (CreateAlert Faults.none sampleStore (.ok zeroEventInput)).emitted
      = [⟨StatusOK, .data (newAlert sampleStore.nextAlertID zeroEventInput (⟨7⟩ : Machine))⟩] ∧
    (⟨(⟨⟨0, none⟩, ""⟩ : Event).Time, (⟨⟨0, none⟩, ""⟩ : Event).Serialized, sampleStore.nextAlertID⟩ : EventRow)
      ∈ (CreateAlert Faults.none sampleStore (.ok zeroEventInput)).store.events) :=
  ⟨by decide, by decide,
    createAlert_event_fields_unchecked Faults.none sampleStore zeroEventInput ⟨7⟩ ⟨⟨0, none⟩, ""⟩
      (by decide) (by decide) rfl (fun _ _ => rfl)⟩

/-- C9 (counterexample): the sample request with a single event whose
timestamp and payload are both zero-valued is answered OK, and that event is
stored. -/
theorem createAlert_zero_event_accepted :
    (CreateAlert Faults.none sampleStore (.ok zeroEventInput)).emitted
      = [⟨StatusOK, .data (newAlert 1 zeroEventInput ⟨7⟩)⟩] ∧
    (CreateAlert Faults.none sampleStore (.ok zeroEventInput)).store.events
      = [⟨⟨0, none⟩, "", 1⟩] := by
  decide

end Crowdsec
